import Mathlib

/-!
Verification of the OctoPrint network-device plugin (`OctoPrintOutputDevice.py`,
`OctoPrintOutputDevicePlugin.py`, `DiscoverOctoPrintAction.py`) against its
natural-language specification.

The Python sources are shallowly embedded: mutable object state becomes explicit
record-passing, the JSON payloads consumed by the response handlers become
structured values (a key that may be absent or `null` becomes an `Option`),
numbers become `Rat`, and a Python exception escaping a handler is recorded in
an explicit `raised` field of the step result (mutations made before the raise
are kept, as in Python).
-/

/-! ### Connection state (`UnifiedConnectionState`, OctoPrintOutputDevice.py lines 120-132)

The numeric values mirror the Cura `ConnectionState` IntEnum
(Closed = 0, Connecting = 1, Connected = 2, Busy = 3, Error = 4). -/

inductive UnifiedConnectionState
  | closed
  | connecting
  | connected
  | busy
  | error
deriving DecidableEq, Inhabited

def UnifiedConnectionState.toInt : UnifiedConnectionState → Nat
  | .closed => 0
  | .connecting => 1
  | .connected => 2
  | .busy => 3
  | .error => 4

/-- Python truthiness of the `Optional[UnifiedConnectionState]` value
`self._connection_state_before_timeout`: `None` is falsy and the IntEnum value
`Closed` (= 0) is falsy as well. -/
def connStateTruthy : Option UnifiedConnectionState → Bool
  | none => false
  | some s => s.toInt != 0

/-! ### Printer status flags (`state.flags` payload of `api/printer`) -/

/-- The `state.flags` object of an `api/printer` response. OctoPrint reports all
of these flags on every status response; several can be true at once. -/
structure StateFlags where
  error : Bool
  closedOrError : Bool
  paused : Bool
  pausing : Bool
  printing : Bool
  cancelling : Bool
  ready : Bool
  operational : Bool
deriving DecidableEq, Inhabited

/-- Printer state derivation from `state.flags`
(OctoPrintOutputDevice.py lines 1095-1113). -/
def printerStateFromFlags (flags : StateFlags) : String :=
  if flags.error || flags.closedOrError then "error"
  else if flags.paused || flags.pausing then "paused"
  else if flags.printing then "printing"
  else if flags.cancelling then "aborted"
  else if flags.ready || flags.operational then "idle"
  else "offline"

/-- The priority order stated by the spec: error-or-closed > paused-or-pausing >
printing > cancelling > ready-or-operational > otherwise offline. The first
matching row of the table wins. -/
def statePriorityTable (flags : StateFlags) : List (Bool × String) :=
  [(flags.error || flags.closedOrError, "error"),
   (flags.paused || flags.pausing, "paused"),
   (flags.printing, "printing"),
   (flags.cancelling, "aborted"),
   (flags.ready || flags.operational, "idle")]

/-- Spec-side printer state: first true row of the priority table, `"offline"`
when no row matches. -/
def printerStateByPriority (flags : StateFlags) : String :=
  match (statePriorityTable flags).find? (fun row => row.1) with
  | some row => row.2
  | none => "offline"

/-! ### View models (Cura `PrinterOutputModel` / `PrintJobOutputModel` state
used by the plugin) -/

structure AxisInformation where
  speed : Rat
  inverted : Bool
deriving DecidableEq, Inhabited

/-- Values of one entry of the `temperature` payload object (`actual` / `target`
may be `null`, which is modelled as `none`). -/
structure ToolTemps where
  actual : Option Rat
  target : Option Rat
deriving DecidableEq, Inhabited

structure PrintJobModel where
  state : String
  timeElapsed : Rat
  timeTotal : Rat
  name : String
deriving DecidableEq, Inhabited

structure ExtruderModel where
  hotendTemperature : Rat
  targetHotendTemperature : Rat
deriving DecidableEq, Inhabited

structure PrinterModel where
  name : String
  extruders : List ExtruderModel
  bedTemperature : Rat
  targetBedTemperature : Rat
  state : String
  activePrintJob : Option PrintJobModel
deriving DecidableEq, Inhabited

/-! ### Device state (`OctoPrintOutputDevice` fields used by the claims) -/

structure Device where
  id : String
  connectionState : UnifiedConnectionState
  connectionStateBeforeTimeout : Option UnifiedConnectionState
  acceptsCommands : Bool
  connectionText : String
  updateInterval : Nat
  printers : List PrinterModel
  numberOfExtruders : Nat
  numberOfExtrudersSet : Bool
  printerName : String
  printerModel : String
  axisInformation : List (String × AxisInformation)
  pollingEndPoints : List String
  waitingForPrinter : Bool
  waitingForAnalysis : Bool
  waitingMessageShown : Bool
  streamingMessageShown : Bool
  forcedQueue : Bool
  selectAndPrintHandledInUpload : Bool
  uploadAutoPrint : Bool
  uploadAutoSelect : Bool
  storeOnSdSupported : Bool
  storeOnSdPreference : Bool
  ufpTransferSupported : Bool
  ufpPluginVersionLt017 : Bool
  gcodeAnalysisRequiresWait : Bool
  gcodeAnalysisSupported : Bool
deriving DecidableEq, Inhabited

/-- Property `_store_on_sd`: SD storage must be supported by the instance and
enabled in the machine metadata (OctoPrintOutputDevice.py lines 313-320). -/
def storeOnSd (d : Device) : Bool := d.storeOnSdSupported && d.storeOnSdPreference

/-- Property `_transfer_as_ufp` (lines 322-324). -/
def transferAsUfp (d : Device) : Bool := d.ufpTransferSupported && !(storeOnSd d)

/-- Property `_wait_for_analysis` (lines 326-332). -/
def waitForAnalysis (d : Device) : Bool :=
  d.gcodeAnalysisRequiresWait && d.gcodeAnalysisSupported && !(storeOnSd d)

def updateFastInterval : Nat := 2000
def updateSlowInterval : Nat := 10000

def connectedText (id : String) : String := "Connected to OctoPrint on " ++ id

def accessDeniedText (id : String) : String :=
  "OctoPrint on " ++ id ++ " does not allow access to the printer state"

def notOperationalText (id : String) : String :=
  "The printer connected to OctoPrint on " ++ id ++ " is not operational"

def notRunningText (id : String) : String := "OctoPrint on " ++ id ++ " is not running"

def jobAccessDeniedText (id : String) : String :=
  "OctoPrint on " ++ id ++ " does not allow access to the job state"

/-- Apply a mutation to `self._printers[0]` (an OctoPrint instance has a single
printer; the list is empty only before `_createPrinterList` ran). -/
def modifyPrinter0 (d : Device) (f : PrinterModel → PrinterModel) : Device :=
  match d.printers with
  | [] => d
  | p :: rest => { d with printers := f p :: rest }

/-- Model of `_createPrinterList` (lines 1775-1782): a fresh single-printer list with
`numberOfExtruders` extruder entries. Cura model objects start with zeroed
temperatures and printer state `"unknown"`. -/
def createPrinterList (d : Device) : Device :=
  { d with printers :=
      [{ name := d.id,
         extruders := List.replicate d.numberOfExtruders
           { hotendTemperature := 0, targetHotendTemperature := 0 },
         bedTemperature := 0,
         targetBedTemperature := 0,
         state := "unknown",
         activePrintJob := none }] }

/-- Model of `printer.updateState(s)` on `self._printers[0]`. -/
def updatePrinterState (d : Device) (s : String) : Device :=
  modifyPrinter0 d (fun p => { p with state := s })

/-- Model of `_setOffline(printer, reason)` (lines 1791-1800): only acts when the printer
is not already offline; also forces the active print job offline and replaces
the connection text with the reason. -/
def setOfflineDevice (d : Device) (reason : String) : Device :=
  match d.printers with
  | [] => d
  | p :: rest =>
    if p.state ≠ "offline" then
      { d with
          printers :=
            { p with
                state := "offline",
                activePrintJob := p.activePrintJob.map (fun j => { j with state := "offline" }) }
            :: rest,
          connectionText := reason }
    else d

/-! ### Decimal tool keys (`"tool%d" % index`) -/

/-- Decimal digit characters of `n`, most significant first; fuel-driven
rendition of repeated division by 10 (`fuel = n` always suffices since
`n / 10 < n` for positive `n`). -/
def decCharsAux : Nat → Nat → List Char
  | 0, _ => []
  | fuel + 1, n => if n = 0 then [] else decCharsAux fuel (n / 10) ++ [Nat.digitChar (n % 10)]

/-- Decimal rendering of a natural number (the value of Python `"%d" % n`). -/
def decChars (n : Nat) : List Char := if n = 0 then ['0'] else decCharsAux n n

/-- The dictionary key `"tool%d" % n` probed by the extruder-count loop. -/
def toolKeyStr (n : Nat) : String := String.mk ("tool".data ++ decChars n)

/-- Python `key in dict` on the `temperature` payload object. -/
def tempHasKey (temp : List (String × ToolTemps)) (k : String) : Bool :=
  temp.any (fun kv => kv.1 == k)

/-- Python `dict[key]` lookup on the `temperature` payload object. -/
def tempLookup (temp : List (String × ToolTemps)) (k : String) : Option ToolTemps :=
  (temp.find? (fun kv => kv.1 == k)).map (fun kv => kv.2)

/-- The probing loop of lines 1037-1042: starting from `n`, count up while
`"tool%d" % n` is a key of the temperature object. The Python loop is bounded
by the finite dictionary: the count can never exceed the number of distinct
keys, so fuel `temp.length` reproduces it exactly. -/
def countToolsFrom (temp : List (String × ToolTemps)) : Nat → Nat → Nat
  | 0, n => n
  | fuel + 1, n =>
    if tempHasKey temp (toolKeyStr n) then countToolsFrom temp fuel (n + 1) else n

/-! ### Printer status handler (`_onRequestFinished`, `api/printer` branch,
lines 999-1160) -/

/-- Parsed shape of an `api/printer` 200 payload: the `temperature` and `state`
keys may each be absent (a malformed JSON body is treated as `{}`, i.e. both
absent). When `state` is present OctoPrint always sends the full flags
object. -/
structure PrinterPayload where
  temperature : Option (List (String × ToolTemps))
  state : Option StateFlags
deriving DecidableEq, Inhabited

/-- Lines 1015-1021: `_setAcceptsCommands(True)` and the Connected text, only
when commands were not accepted yet. -/
def enableCommands (d : Device) : Device :=
  if !d.acceptsCommands then
    { d with acceptsCommands := true, connectionText := connectedText d.id }
  else d

/-- Lines 1023-1026 (and 1127-1130 for the 409 branch): promote a Connecting
device to Connected. -/
def promoteConnecting (d : Device) : Device :=
  if d.connectionState = .connecting then { d with connectionState := .connected } else d

/-- Temperature processing (lines 1035-1093): infer the extruder count on the
first payload, rebuild the printer list if more than one extruder was found,
then update hotend and bed temperatures (`null` readings become the sentinel
`-1`; a missing tool in range becomes `0`; a missing bed forces `-1` actual and
`0` target). -/
def processTemperature (d : Device) (temp : List (String × ToolTemps)) : Device :=
  let d1 :=
    if !d.numberOfExtrudersSet then
      let count := countToolsFrom temp temp.length 0
      let dA := { d with numberOfExtruders := count }
      let dB := if count > 1 then createPrinterList dA else dA
      if count > 0 then { dB with numberOfExtrudersSet := true } else dB
    else d
  modifyPrinter0 d1 (fun printer =>
    let printer :=
      { printer with
          extruders := printer.extruders.mapIdx (fun i e =>
            if i < d1.numberOfExtruders then
              match tempLookup temp (toolKeyStr i) with
              | some tt =>
                { hotendTemperature := tt.actual.getD (-1),
                  targetHotendTemperature := tt.target.getD (-1) }
              | none => { hotendTemperature := 0, targetHotendTemperature := 0 }
            else e) }
    match tempLookup temp "bed" with
    | some bt =>
      { printer with
          bedTemperature := bt.actual.getD (-1),
          targetBedTemperature := bt.target.getD (-1) }
    | none => { printer with bedTemperature := -1, targetBedTemperature := 0 })

/-- Dispatch on the optional `temperature` key (line 1035). -/
def applyTemperature (d : Device) (t : Option (List (String × ToolTemps))) : Device :=
  match t with
  | some temp => processTemperature d temp
  | none => d

/-- The printer state written at line 1114: flags-derived when the `state` key
is present, the initial `"offline"` otherwise. -/
def payloadPrinterState (p : PrinterPayload) : String :=
  match p.state with
  | some flags => printerStateFromFlags flags
  | none => "offline"

/-- The HTTP 200 branch of the `api/printer` handler (lines 1012-1114): enable
commands, promote Connecting to Connected, process temperatures, then derive
and apply the printer state from the flags; finally the poll interval becomes
fast (the `update_pace` set at line 1013 reaches `setInterval` at 1159-1160). -/
def printerStep200 (d : Device) (p : PrinterPayload) : Device :=
  { updatePrinterState (applyTemperature (promoteConnecting (enableCommands d)) p.temperature)
      (payloadPrinterState p)
    with updateInterval := updateFastInterval }

/-- The `api/printer` branch of `_onRequestFinished` (lines 999-1160). The
`update_pace` variable starts at the slow interval and becomes the fast interval
only on HTTP 200, but the 401/403, 409 and 502/503 branches `return` before the
timer interval is updated, so only the 200 branch and the catch-all branch reach
the `setInterval` call at lines 1159-1160. -/
def printerResponseStep (d0 : Device) (status : Nat) (p : PrinterPayload) : Device :=
  let d := if d0.printers.isEmpty then createPrinterList d0 else d0
  if status = 200 then printerStep200 d p
  else if status = 401 ∨ status = 403 then
    setOfflineDevice d (accessDeniedText d.id)
  else if status = 409 then
    setOfflineDevice (promoteConnecting d) (notOperationalText d.id)
  else if status = 502 ∨ status = 503 then
    setOfflineDevice d (notRunningText d.id)
  else
    { setOfflineDevice d "" with updateInterval := updateSlowInterval }

/-! ### Shared sample device -/

def samplePrinter : PrinterModel :=
  { name := "octoprint_test",
    extruders := [{ hotendTemperature := 0, targetHotendTemperature := 0 }],
    bedTemperature := 0,
    targetBedTemperature := 0,
    state := "idle",
    activePrintJob := some { state := "ready", timeElapsed := 0, timeTotal := 0, name := "" } }

/-- A device as it looks once connected with a fast poll interval. -/
def connectedDevice : Device :=
  { id := "octoprint_test",
    connectionState := .connected,
    connectionStateBeforeTimeout := none,
    acceptsCommands := true,
    connectionText := connectedText "octoprint_test",
    updateInterval := updateFastInterval,
    printers := [samplePrinter],
    numberOfExtruders := 1,
    numberOfExtrudersSet := true,
    printerName := "",
    printerModel := "",
    axisInformation :=
      [("x", { speed := 6000, inverted := false }), ("y", { speed := 6000, inverted := false }),
       ("z", { speed := 6000, inverted := false }), ("e", { speed := 300, inverted := false })],
    pollingEndPoints := ["printer", "job"],
    waitingForPrinter := false,
    waitingForAnalysis := false,
    waitingMessageShown := false,
    streamingMessageShown := false,
    forcedQueue := false,
    selectAndPrintHandledInUpload := false,
    uploadAutoPrint := true,
    uploadAutoSelect := true,
    storeOnSdSupported := false,
    storeOnSdPreference := false,
    ufpTransferSupported := false,
    ufpPluginVersionLt017 := false,
    gcodeAnalysisRequiresWait := false,
    gcodeAnalysisSupported := false }

def emptyPrinterPayload : PrinterPayload := { temperature := none, state := none }

/-! ### Helper lemmas about the printer handler -/

theorem modifyPrinter0_printers_ne (d : Device) (f : PrinterModel → PrinterModel)
    (h : d.printers ≠ []) : (modifyPrinter0 d f).printers ≠ [] := by
  unfold modifyPrinter0
  cases hp : d.printers with
  | nil => exact absurd hp h
  | cons p rest => simp

theorem createPrinterList_printers_ne (d : Device) : (createPrinterList d).printers ≠ [] := by
  simp [createPrinterList]

theorem processTemperature_printers_ne (d : Device) (temp : List (String × ToolTemps))
    (h : d.printers ≠ []) : (processTemperature d temp).printers ≠ [] := by
  unfold processTemperature
  apply modifyPrinter0_printers_ne
  by_cases hset : d.numberOfExtrudersSet
  · simp [hset, h]
  · simp only [hset, Bool.false_eq_true, not_false_eq_true, Bool.not_false, if_true]
    by_cases hc : countToolsFrom temp temp.length 0 > 1 <;>
      by_cases hz : countToolsFrom temp temp.length 0 > 0 <;>
        simp [hc, hz, createPrinterList_printers_ne, createPrinterList, h]

theorem applyTemperature_printers_ne (d : Device) (t : Option (List (String × ToolTemps)))
    (h : d.printers ≠ []) : (applyTemperature d t).printers ≠ [] := by
  cases t with
  | none => exact h
  | some temp => exact processTemperature_printers_ne d temp h

theorem enableCommands_printers (d : Device) : (enableCommands d).printers = d.printers := by
  unfold enableCommands
  by_cases h : d.acceptsCommands <;> simp [h]

theorem promoteConnecting_printers (d : Device) :
    (promoteConnecting d).printers = d.printers := by
  unfold promoteConnecting
  by_cases h : d.connectionState = UnifiedConnectionState.connecting <;> simp [h]

theorem updatePrinterState_head_state (d : Device) (s : String) (h : d.printers ≠ []) :
    ((updatePrinterState d s).printers.headD default).state = s := by
  unfold updatePrinterState modifyPrinter0
  cases hp : d.printers with
  | nil => exact absurd hp h
  | cons p rest => simp

theorem printerStateFromFlags_eq_priority (flags : StateFlags) :
    printerStateFromFlags flags = printerStateByPriority flags := by
  obtain ⟨e, c, pa, pg, pr, ca, r, o⟩ := flags
  cases e <;> cases c <;> cases pa <;> cases pg <;> cases pr <;> cases ca <;> cases r <;>
    cases o <;> rfl

theorem printersNonEmptyAfterGuard (d : Device) :
    (if d.printers.isEmpty then createPrinterList d else d).printers ≠ [] := by
  by_cases hp : d.printers.isEmpty
  · simp [hp, createPrinterList_printers_ne]
  · simpa [hp] using (by simpa [List.isEmpty_iff] using hp)

/-! ### Claim C1 -/

/-- C1: for every `api/printer` 200 response whose payload contains a
`state.flags` object, the displayed printer state follows the fixed priority
order error-or-closed > paused-or-pausing > printing > cancelling >
ready-or-operational > otherwise offline; in particular simultaneous
`printing` and `paused` flags resolve to `"paused"`. -/
theorem C1_printer_state_priority (d : Device)
    (tempOpt : Option (List (String × ToolTemps))) (flags : StateFlags) :
    ((printerResponseStep d 200 { temperature := tempOpt, state := some flags }).printers.headD
        default).state = printerStateByPriority flags
    ∧ printerStateFromFlags
        { error := false, closedOrError := false, paused := true, pausing := false,
          printing := true, cancelling := false, ready := false, operational := false }
      = "paused" := by
  refine ⟨?_, rfl⟩
  rw [← printerStateFromFlags_eq_priority]
  show ((printerStep200 _ _).printers.headD default).state = _
  unfold printerStep200
  show ((updatePrinterState _ (payloadPrinterState _)).printers.headD default).state = _
  rw [updatePrinterState_head_state]
  · rfl
  · apply applyTemperature_printers_ne
    rw [promoteConnecting_printers, enableCommands_printers]
    exact printersNonEmptyAfterGuard d

/-! ### Claim C3 -/

theorem setOfflineDevice_updateInterval (d : Device) (reason : String) :
    (setOfflineDevice d reason).updateInterval = d.updateInterval := by
  unfold setOfflineDevice
  rcases hp : d.printers with _ | ⟨p, rest⟩
  · simp
  · by_cases h : p.state ≠ "offline" <;> simp [hp, h]

theorem promoteConnecting_updateInterval (d : Device) :
    (promoteConnecting d).updateInterval = d.updateInterval := by
  unfold promoteConnecting
  by_cases h : d.connectionState = UnifiedConnectionState.connecting <;> simp [h]

theorem printersGuard_updateInterval (d : Device) :
    (if d.printers.isEmpty then createPrinterList d else d).updateInterval = d.updateInterval := by
  by_cases hp : d.printers.isEmpty <;> simp [hp, createPrinterList]

theorem printersGuardEq_updateInterval (d : Device) :
    (if d.printers = [] then createPrinterList d else d).updateInterval = d.updateInterval := by
  by_cases hp : d.printers = [] <;> simp [hp, createPrinterList]

/-- C3 counterexample: a 401 response on `api/printer` returns before the
`setInterval` call, leaving a fast (2000 ms) poll interval in place instead of
slowing it to 10000 ms as the claim states. -/
theorem C3_counterexample :
    (printerResponseStep connectedDevice 401 emptyPrinterPayload).updateInterval = 2000 ∧
    (printerResponseStep connectedDevice 401 emptyPrinterPayload).updateInterval ≠ 10000 := by
  decide

/-- C3 amended: HTTP 200 sets the fast interval (2000 ms); the explicitly
handled error codes 401/403/409/502/503 return early and leave the poll
interval unchanged; every other non-200 code sets the slow interval
(10000 ms). -/
theorem C3_poll_interval_amended (d : Device) (status : Nat) (p : PrinterPayload) :
    (status = 200 → (printerResponseStep d status p).updateInterval = updateFastInterval)
  ∧ (status = 401 ∨ status = 403 ∨ status = 409 ∨ status = 502 ∨ status = 503 →
      (printerResponseStep d status p).updateInterval = d.updateInterval)
  ∧ (status ≠ 200 →
      ¬(status = 401 ∨ status = 403 ∨ status = 409 ∨ status = 502 ∨ status = 503) →
      (printerResponseStep d status p).updateInterval = updateSlowInterval) := by
  refine ⟨?_, ?_, ?_⟩
  · intro h
    subst h
    rfl
  · intro h
    unfold printerResponseStep
    rcases h with h | h | h | h | h <;> subst h <;>
      simp [setOfflineDevice_updateInterval, promoteConnecting_updateInterval,
        printersGuard_updateInterval, printersGuardEq_updateInterval]
  · intro h200 hother
    push_neg at hother
    obtain ⟨h1, h2, h3, h4, h5⟩ := hother
    unfold printerResponseStep
    simp [h200, h1, h2, h3, h4, h5]

/-- Witness for C3: concrete responses exercising each of the three cases. -/
theorem C3_witness :
    (printerResponseStep connectedDevice 200 emptyPrinterPayload).updateInterval
        = updateFastInterval
    ∧ (printerResponseStep connectedDevice 403 emptyPrinterPayload).updateInterval
        = connectedDevice.updateInterval
    ∧ (printerResponseStep connectedDevice 500 emptyPrinterPayload).updateInterval
        = updateSlowInterval :=
  ⟨(C3_poll_interval_amended connectedDevice 200 emptyPrinterPayload).1 rfl,
   (C3_poll_interval_amended connectedDevice 403 emptyPrinterPayload).2.1 (by decide),
   (C3_poll_interval_amended connectedDevice 500 emptyPrinterPayload).2.2 (by decide) (by decide)⟩

/-! ### Python exceptions and step results

A handler that lets a Python exception escape is modelled by a step result whose
`raised` field records the exception; the device keeps all mutations made before
the raise, exactly as the mutable Python objects would. -/

inductive PyError
  | keyError
  | nameError
deriving DecidableEq, Inhabited

/-- A `files/...` job command issued through `_selectAndPrint` (lines
1784-1789); `printNow` is true when `autoPrint` is enabled and the job was not
forced to the queue. -/
inductive UploadCommand
  | selectAndPrint (endPoint : String) (printNow : Bool)
deriving DecidableEq, Inhabited

structure StepResult where
  device : Device
  sendPrintJob : Bool := false
  commands : List UploadCommand := []
  raised : Option PyError := none
deriving DecidableEq, Inhabited

/-- Python truthiness of an optional JSON number (`None`, `0` and `0.0` are
falsy). -/
def truthyQ : Option Rat → Bool
  | none => false
  | some q => q != 0

/-- Python `int()` truncation of an exact rational (toward zero). -/
def pyInt (q : Rat) : Int := if 0 ≤ q then q.floor else q.ceil

/-! ### Job status handler (`_onRequestFinished`, `api/job` branch,
lines 1162-1302) -/

/-- The `state` value of an `api/job` payload: the key may be absent, may hold a
non-string value (checked at line 1189), or a string. -/
inductive JobStateField
  | missing
  | nonString
  | value (s : String)
deriving DecidableEq, Inhabited

/-- The `progress` object of an `api/job` payload; OctoPrint sends all three
keys, each possibly `null`. -/
structure ProgressObject where
  printTime : Option Rat
  completion : Option Rat
  printTimeLeft : Option Rat
deriving DecidableEq, Inhabited

/-- Parsed shape of an `api/job` 200 payload. `jobFileName` is
`json_data["job"]["file"]["name"]` when that path exists (`none` models the
KeyError raised by the unconditional access at line 1270). A malformed JSON
body is treated as `{}`: every field absent. -/
structure JobPayload where
  state : JobStateField
  progress : Option ProgressObject
  jobFileName : Option String
deriving DecidableEq, Inhabited

/-- The job-state vocabulary of lines 1193-1217. The second component records
whether the branch also forces the printer state to `"idle"` (the
`"Operational"` case, line 1205). Unrecognized strings are logged and leave the
initial `"offline"`. -/
def jobStateFromString (s : String) : String × Bool :=
  if s.startsWith "Error" then ("error", false)
  else if s = "Pausing" then ("pausing", false)
  else if s = "Paused" then ("paused", false)
  else if s.startsWith "Printing" then ("printing", false)
  else if s = "Cancelling" then ("abort", false)
  else if s = "Operational" then ("ready", true)
  else if s.startsWith "Starting" || s = "Connecting" || s = "Sending file to SD" then
    ("pre_print", false)
  else if s.startsWith "Offline" then ("offline", false)
  else ("offline", false)

def jobStatePair : JobStateField → String × Bool
  | .missing => ("offline", false)
  | .nonString => ("offline", false)
  | .value s => jobStateFromString s

/-- A fresh `PrintJobOutputModel` (line 1179). -/
def newPrintJob : PrintJobModel := { state := "", timeElapsed := 0, timeTotal := 0, name := "" }

/-- Write the mutated printer object (with its active job) back as
`self._printers[0]`. -/
def writeJob (d : Device) (printer : PrinterModel) (pj : PrintJobModel) : Device :=
  match d.printers with
  | [] => d
  | _ :: rest => { d with printers := { printer with activePrintJob := some pj } :: rest }

/-- Lines 1224-1235: the job total time when `printTime` is truthy; prefer
`printTime + printTimeLeft`, else `int(printTime / (completion / 100))`, else
`0`. There is no further fallback in the source. -/
def totalFromProgress (pr : ProgressObject) : Rat :=
  let pt := pr.printTime.getD 0
  if truthyQ pr.printTimeLeft then pt + pr.printTimeLeft.getD 0
  else if truthyQ pr.completion then ((pyInt (pt / (pr.completion.getD 0 / 100)) : Int) : Rat)
  else 0

/-- The total-time rule exactly as the claim words it, including the fallback to
the pre-slice estimate of the job. Written from the spec for comparison with the
source-derived `totalFromProgress`. -/
def claimedTimeTotal (pr : ProgressObject) (estimatedPrintTime : Option Rat) : Rat :=
  let pt := pr.printTime.getD 0
  if truthyQ pr.printTimeLeft then pt + pr.printTimeLeft.getD 0
  else if truthyQ pr.completion then ((pyInt (pt / (pr.completion.getD 0 / 100)) : Int) : Rat)
  else if truthyQ estimatedPrintTime then estimatedPrintTime.getD 0
  else 0

/-- Lines 1220-1238: apply the progress object to the job model. The second
component is the binding state of the Python local `completion`: `none` means
the variable was never assigned (no `progress` key), `some v` means it holds
value `v` (itself `none` for JSON `null`). -/
def jobModelAfterProgress (pj1 : PrintJobModel) (progress : Option ProgressObject) :
    PrintJobModel × Option (Option Rat) :=
  match progress with
  | none => (pj1, none)
  | some pr =>
    if truthyQ pr.printTime then
      ({ pj1 with timeElapsed := pr.printTime.getD 0, timeTotal := totalFromProgress pr },
       some pr.completion)
    else
      ({ pj1 with timeElapsed := 0, timeTotal := 0 }, some pr.completion)

/-- Lines 1240-1277: the tail of the 200 branch after the progress block. The
read of the local `completion` at line 1240 raises NameError when the variable
was never bound; the unconditional `json_data["job"]["file"]["name"]` at line
1270 raises KeyError when that path is missing. Mutations made before a raise
are kept. -/
def jobTail (d0 : Device) (printer1 : PrinterModel) (pj2 : PrintJobModel)
    (completionVar : Option (Option Rat)) (fileName : Option String) : StepResult :=
  match completionVar with
  | none => { device := writeJob d0 printer1 pj2, raised := some PyError.nameError }
  | some completionVal =>
    let streaming := truthyQ completionVal && (pj2.state = "pre_print" : Bool)
    let d2 := { writeJob d0 printer1 pj2 with streamingMessageShown := streaming }
    match fileName with
    | none => { device := d2, raised := some PyError.keyError }
    | some nm =>
      let pj3 := { pj2 with name := nm }
      let d3 := writeJob d2 printer1 pj3
      if d3.waitingForPrinter && (printer1.state = "idle" : Bool) then
        { device := { d3 with waitingForPrinter := false, waitingMessageShown := false },
          sendPrintJob := true }
      else { device := d3 }

/-- The `api/job` branch of `_onRequestFinished` (lines 1162-1302). -/
def jobResponseStep (d0 : Device) (status : Nat) (p : JobPayload) : StepResult :=
  if d0.printers.isEmpty then { device := d0 }
  else
    let printer := d0.printers.headD default
    if status = 200 then
      let pj0 := printer.activePrintJob.getD newPrintJob
      let pair := jobStatePair p.state
      let printer1 := if pair.2 then { printer with state := "idle" } else printer
      let pj1 := { pj0 with state := pair.1 }
      let stepA := jobModelAfterProgress pj1 p.progress
      jobTail d0 printer1 stepA.1 stepA.2 p.jobFileName
    else if status = 401 ∨ status = 403 then
      { device := setOfflineDevice d0 (jobAccessDeniedText d0.id) }
    else if status = 502 ∨ status = 503 then
      { device := setOfflineDevice d0 (notRunningText d0.id) }
    else { device := d0 }

/-! ### Printer profiles handler (`_onRequestFinished`, `api/printerprofiles`
branch, lines 963-997) -/

structure ProfileObj where
  current : Bool
  profileName : Option String
  profileModel : Option String
  axes : Option (List (String × AxisInformation))
deriving DecidableEq, Inhabited

/-- Parsed shape of an `api/printerprofiles` 200 payload; `none` models a body
without a `profiles` key (in particular the `{}` substituted for malformed
JSON). -/
structure ProfilesPayload where
  profiles : Option (List (String × ProfileObj))
deriving DecidableEq, Inhabited

def axisOrder : List String := ["x", "y", "z", "e"]

/-- Python dict item assignment on the axis-information dictionary. -/
def dictSetAxis (info : List (String × AxisInformation)) (k : String) (v : AxisInformation) :
    List (String × AxisInformation) :=
  if info.any (fun kv => kv.1 == k) then
    info.map (fun kv => if kv.1 == k then (k, v) else kv)
  else info ++ [(k, v)]

/-- The per-axis loop of lines 980-984: assign axis info in order, stopping at
the first missing key (the KeyError is caught at line 985 and logged; the
assignments already made are kept). -/
def updateAxesGo (ax : List (String × AxisInformation)) :
    List (String × AxisInformation) → List String → List (String × AxisInformation)
  | info, [] => info
  | info, a :: rest =>
    match (ax.find? (fun kv => kv.1 == a)).map (fun kv => kv.2) with
    | none => info
    | some v => updateAxesGo ax (dictSetAxis info a v) rest

def updateAxesFrom (info : List (String × AxisInformation))
    (axes : Option (List (String × AxisInformation))) : List (String × AxisInformation) :=
  match axes with
  | none => info
  | some ax => updateAxesGo ax info axisOrder

/-- The profile loop of lines 973-991: the first profile flagged `current` sets
the printer name/model and axis information, then the handler returns. -/
def applyProfiles (d : Device) : List (String × ProfileObj) → Device
  | [] => d
  | (_, prof) :: rest =>
    if prof.current then
      { d with
          printerName := prof.profileName.getD "",
          printerModel := prof.profileModel.getD "",
          axisInformation := updateAxesFrom d.axisInformation prof.axes }
    else applyProfiles d rest

/-- The `api/printerprofiles` branch of `_onRequestFinished` (lines 963-997).
On HTTP 200 the body is parsed (malformed JSON replaced by `{}`), and then
`json_data["profiles"]` is accessed unconditionally: a missing key raises
KeyError. -/
def profilesResponseStep (d : Device) (status : Nat) (p : ProfilesPayload) : StepResult :=
  if status = 200 then
    match p.profiles with
    | none => { device := d, raised := some PyError.keyError }
    | some profs => { device := applyProfiles d profs }
  else { device := d }

def malformedJobPayload : JobPayload :=
  { state := .missing, progress := none, jobFileName := none }

def malformedProfilesPayload : ProfilesPayload := { profiles := none }

/-! ### Claim C4 -/

/-- C4: the claim says a 200 response with a malformed JSON body is logged and
the handler returns without raising, leaving stored state unchanged. In fact
after substituting `{}` the `api/job` handler reads the never-assigned local
`completion` at line 1240 (NameError) and the `api/printerprofiles` handler
indexes the missing `"profiles"` key at line 973 (KeyError). -/
theorem C4_malformed_payload_crashes :
    (jobResponseStep connectedDevice 200 malformedJobPayload).raised = some PyError.nameError
    ∧ (profilesResponseStep connectedDevice 200 malformedProfilesPayload).raised
        = some PyError.keyError := by
  decide

/-! ### Claim C6 -/

theorem totalFromProgress_eq_claimed_none (pr : ProgressObject) :
    totalFromProgress pr = claimedTimeTotal pr none := by
  unfold totalFromProgress claimedTimeTotal
  by_cases h1 : truthyQ pr.printTimeLeft <;> by_cases h2 : truthyQ pr.completion <;>
    simp [h1, h2, truthyQ]

theorem writeJob_head (d : Device) (printer : PrinterModel) (pj : PrintJobModel)
    (hd : d.printers ≠ []) :
    (writeJob d printer pj).printers.headD default
      = { printer with activePrintJob := some pj } := by
  unfold writeJob
  rcases hp : d.printers with _ | ⟨q, rest⟩
  · exact absurd hp hd
  · simp [hp]

theorem writeJob_printers_ne (d : Device) (printer : PrinterModel) (pj : PrintJobModel)
    (hd : d.printers ≠ []) : (writeJob d printer pj).printers ≠ [] := by
  unfold writeJob
  rcases hp : d.printers with _ | ⟨q, rest⟩
  · exact absurd hp hd
  · simp [hp]

def progressNoLeft : ProgressObject :=
  { printTime := some 100, completion := none, printTimeLeft := none }

def jobPayloadNoLeft : JobPayload :=
  { state := .value "Printing", progress := some progressNoLeft, jobFileName := some "job.gcode" }

/-- C6 counterexample: for a progress object with non-zero `printTime` but
falsy `printTimeLeft` and `completion`, the code reports a total of `0` even
when the job carries a pre-slice estimate (here 500 s); the claimed fallback to
`job.estimatedPrintTime` does not exist in the source. -/
theorem C6_counterexample :
    (((jobResponseStep connectedDevice 200 jobPayloadNoLeft).device.printers.headD
        default).activePrintJob.getD newPrintJob).timeTotal = 0
    ∧ claimedTimeTotal progressNoLeft (some 500) = 500
    ∧ (0 : Rat) ≠ 500 := by
  decide

/-- C6 amended: for every `api/job` 200 response containing a progress object
with truthy `printTime`, the reported total is `printTime + printTimeLeft` when
`printTimeLeft` is truthy, else `int(printTime / (completion / 100))` when
`completion` is truthy, else `0`; the pre-slice estimate is never consulted
(this equals the claimed rule with the estimate absent), and the division is
guarded by `completion` being non-zero. -/
theorem jobTail_timeTotal (d0 : Device) (printer1 : PrinterModel) (pj2 : PrintJobModel)
    (cv : Option (Option Rat)) (fn : Option String) (hd : d0.printers ≠ []) :
    (((jobTail d0 printer1 pj2 cv fn).device.printers.headD default).activePrintJob.getD
        newPrintJob).timeTotal = pj2.timeTotal := by
  have hw1 := writeJob_head d0 printer1 pj2 hd
  have hw2 := writeJob_printers_ne d0 printer1 pj2 hd
  rcases cv with _ | completionVal
  · simp only [jobTail]
    rw [hw1]
    rfl
  · rcases fn with _ | nm
    · simp only [jobTail]
      rw [hw1]
      rfl
    · have hw3 := writeJob_head
        ({ writeJob d0 printer1 pj2 with streamingMessageShown :=
            (truthyQ completionVal && (pj2.state = "pre_print" : Bool)) })
        printer1 { pj2 with name := nm } hw2
      simp only [jobTail]
      by_cases hcond : ((writeJob
          { writeJob d0 printer1 pj2 with streamingMessageShown :=
              (truthyQ completionVal && (pj2.state = "pre_print" : Bool)) }
          printer1 { pj2 with name := nm }).waitingForPrinter
          && (printer1.state = "idle" : Bool)) = true
      · rw [if_pos hcond]
        show (((writeJob
            { writeJob d0 printer1 pj2 with streamingMessageShown :=
                (truthyQ completionVal && (pj2.state = "pre_print" : Bool)) }
            printer1 { pj2 with name := nm }).printers.headD default).activePrintJob.getD
              newPrintJob).timeTotal = pj2.timeTotal
        rw [hw3]
        rfl
      · rw [if_neg hcond]
        show (((writeJob
            { writeJob d0 printer1 pj2 with streamingMessageShown :=
                (truthyQ completionVal && (pj2.state = "pre_print" : Bool)) }
            printer1 { pj2 with name := nm }).printers.headD default).activePrintJob.getD
              newPrintJob).timeTotal = pj2.timeTotal
        rw [hw3]
        rfl

theorem C6_time_total_amended (d : Device) (p : JobPayload) (pr : ProgressObject)
    (hd : d.printers ≠ []) (hpr : p.progress = some pr)
    (hpt : truthyQ pr.printTime = true) :
    (((jobResponseStep d 200 p).device.printers.headD default).activePrintJob.getD
        newPrintJob).timeTotal = claimedTimeTotal pr none := by
  have hne : d.printers.isEmpty = false := by
    rcases hp : d.printers with _ | ⟨q, rest⟩
    · exact absurd hp hd
    · rfl
  rw [← totalFromProgress_eq_claimed_none]
  unfold jobResponseStep
  rw [hne]
  simp only [Bool.false_eq_true, if_false, if_pos rfl]
  rw [show jobModelAfterProgress
        { (d.printers.headD default).activePrintJob.getD newPrintJob with
            state := (jobStatePair p.state).1 } p.progress
      = ({ (d.printers.headD default).activePrintJob.getD newPrintJob with
            state := (jobStatePair p.state).1,
            timeElapsed := pr.printTime.getD 0,
            timeTotal := totalFromProgress pr },
         some pr.completion) from by
    rw [hpr]
    simp only [jobModelAfterProgress]
    rw [hpt]
    simp]
  simp only [if_true]
  exact jobTail_timeTotal _ _ _ _ _ hd

/-- Witness for C6: a payload whose total derives from the completion
percentage. -/
def progressWithCompletion : ProgressObject :=
  { printTime := some 100, completion := some 50, printTimeLeft := none }

def jobPayloadWithCompletion : JobPayload :=
  { state := .value "Printing", progress := some progressWithCompletion,
    jobFileName := some "a.gcode" }

theorem C6_witness :
    (((jobResponseStep connectedDevice 200 jobPayloadWithCompletion).device.printers.headD
        default).activePrintJob.getD newPrintJob).timeTotal
      = claimedTimeTotal progressWithCompletion none :=
  C6_time_total_amended connectedDevice jobPayloadWithCompletion progressWithCompletion
    (by decide) rfl (by decide)

/-! ### Upload finish and analysis-wait protocol (`_onUploadFinished` lines
1564-1706, `files/` polling branch lines 1338-1381, `_stopWaitingForAnalysis`
lines 724-746) -/

/-- Python `pat in s` substring test. -/
def strContains (s pat : String) : Bool := (s.splitOn pat).length != 1

/-- Model of `_selectAndPrint` (lines 1784-1789): a `select` command that also prints
when `autoPrint` is set and the job was not forced to the queue. -/
def selectAndPrintCmd (d : Device) (endPoint : String) : UploadCommand :=
  .selectAndPrint endPoint (d.uploadAutoPrint && !d.forcedQueue)

/-- Lines 1622-1631: adjust the endpoint reported in the Location header when
the artifact was transferred as `.ufp` (the UFP plugin extracts the gcode under
a version-dependent name). -/
def resolveUploadEndPoint (d : Device) (endPoint : String) : String :=
  if transferAsUfp d && endPoint.endsWith ".ufp" then
    if d.ufpPluginVersionLt017 then endPoint ++ ".gcode"
    else endPoint.dropRight 3 ++ "gcode"
  else endPoint

/-- The success path of `_onUploadFinished` (lines 1617-1706), for an upload
whose HTTP status produced no error message. Returns the mutated device and the
`_selectAndPrint` commands issued. -/
def onUploadFinishedOk (d : Device) (locationEndPoint : String) :
    Device × List UploadCommand :=
  let endPoint := resolveUploadEndPoint d locationEndPoint
  if d.forcedQueue || !d.uploadAutoPrint then
    -- "Saved to OctoPrint" message (lines 1633-1656)
    if d.uploadAutoPrint || d.uploadAutoSelect then (d, [selectAndPrintCmd d endPoint])
    else (d, [])
  else if d.uploadAutoPrint || d.uploadAutoSelect || waitForAnalysis d then
    if !(waitForAnalysis d) || !d.uploadAutoPrint then
      if !d.selectAndPrintHandledInUpload && (d.uploadAutoPrint || d.uploadAutoSelect) then
        (d, [selectAndPrintCmd d endPoint])
      else (d, [])
    else
      ({ d with
           waitingMessageShown := true,
           waitingForAnalysis := true,
           pollingEndPoints := d.pollingEndPoints ++ [endPoint] }, [])
  else (d, [])

/-- The `files/` polling branch of `_onRequestFinished` (lines 1338-1381): on a
200 response while waiting for analysis, the wait ends and `_selectAndPrint`
runs only when the body contains `gcodeAnalysis.progress`. -/
def fileInfoResponseStep (d : Device) (endPoint : String) (status : Nat)
    (gcodeAnalysisHasProgress : Bool) : Device × List UploadCommand :=
  if status = 200 then
    if !d.waitingForAnalysis then (d, [])
    else if gcodeAnalysisHasProgress then
      ({ d with
           waitingForAnalysis := false,
           waitingMessageShown := false,
           pollingEndPoints :=
             d.pollingEndPoints.filter (fun pt => !(pt.startsWith "files/")) },
       [selectAndPrintCmd d endPoint])
    else (d, [])
  else (d, [])

/-- The loop of lines 730-735: the `end_point` local holds the first polling
endpoint containing `"files/"`, or the last element when none matched (a
Python for-loop leaves its variable at the final iteration; an empty list
leaves it unbound, raising NameError at the subsequent read). -/
def lastOrFirstFilesEndPoint (l : List String) : Option String :=
  match l.find? (fun pt => strContains pt "files/") with
  | some ep => some ep
  | none => l.getLast?

/-- Model of `_stopWaitingForAnalysis` (lines 724-746): the user pressed "Print now" or
"Cancel" on the waiting message. -/
def stopWaitingForAnalysis (d : Device) (actionId : String) : StepResult :=
  let d1 := { d with waitingMessageShown := false, waitingForAnalysis := false }
  match lastOrFirstFilesEndPoint d1.pollingEndPoints with
  | none => { device := d1, raised := some PyError.nameError }
  | some ep =>
    if !(strContains ep "files/") then { device := d1 }
    else
      let d2 := { d1 with pollingEndPoints :=
        d1.pollingEndPoints.filter (fun pt => !(pt.startsWith "files/")) }
      if actionId = "print" then { device := d2, commands := [selectAndPrintCmd d2 ep] }
      else { device := d2 }

/-- Events that can reach the analysis-wait sub-protocol after an upload
completes: `files/` poll responses and user actions on the waiting message. -/
inductive ProtocolEvent
  | filePoll (endPoint : String) (status : Nat) (gcodeAnalysisHasProgress : Bool)
  | userAction (actionId : String)
deriving DecidableEq, Inhabited

def protocolStep (d : Device) : ProtocolEvent → Device × List UploadCommand
  | .filePoll ep st hp => fileInfoResponseStep d ep st hp
  | .userAction a =>
    let r := stopWaitingForAnalysis d a
    (r.device, r.commands)

def protocolRun (d : Device) : List ProtocolEvent → Device × List UploadCommand
  | [] => (d, [])
  | ev :: evs =>
    let r := protocolStep d ev
    let rest := protocolRun r.1 evs
    (rest.1, r.2 ++ rest.2)

/-- An event that legitimately ends the analysis wait: a 200 `files/` poll
response containing `gcodeAnalysis.progress`, or the explicit "print" user
override. -/
def analysisTrigger : ProtocolEvent → Bool
  | .filePoll _ st hp => (decide (st = 200)) && hp
  | .userAction a => decide (a = "print")

theorem protocolStep_no_trigger_no_commands (d : Device) (ev : ProtocolEvent)
    (h : analysisTrigger ev = false) : (protocolStep d ev).2 = [] := by
  cases ev with
  | filePoll ep st hp =>
    simp only [analysisTrigger, Bool.and_eq_false_iff, decide_eq_false_iff_not] at h
    unfold protocolStep fileInfoResponseStep
    rcases h with h | h
    · simp [h]
    · by_cases h200 : st = 200
      · by_cases hw : d.waitingForAnalysis <;> simp [h200, hw, h]
      · simp [h200]
  | userAction a =>
    simp only [analysisTrigger, decide_eq_false_iff_not] at h
    unfold protocolStep stopWaitingForAnalysis
    rcases hf : lastOrFirstFilesEndPoint
        ({ d with waitingMessageShown := false,
                  waitingForAnalysis := false } : Device).pollingEndPoints with _ | ep
    · simp [hf]
    · by_cases hc : strContains ep "files/" <;> simp [hf, hc, h]

theorem protocolRun_no_trigger_no_commands (evs : List ProtocolEvent) :
    ∀ d : Device, (∀ ev ∈ evs, analysisTrigger ev = false) →
      (protocolRun d evs).2 = [] := by
  induction evs with
  | nil => intro d _; rfl
  | cons ev evs ih =>
    intro d h
    show ((protocolRun (protocolStep d ev).1 evs).1,
        (protocolStep d ev).2 ++ (protocolRun (protocolStep d ev).1 evs).2).2 = []
    simp only []
    rw [protocolStep_no_trigger_no_commands d ev (h ev (List.mem_cons_self ev evs))]
    rw [ih _ (fun e he => h e (List.mem_cons_of_mem ev he))]
    rfl

/-! ### Claim C5 -/

/-- C5: an upload with autoPrint enabled, SD storage disabled, and analysis
wait required and supported sets the analysis-wait flag, adds the uploaded
file endpoint to the polling set, issues no select-and-print command, and no
such command for that file can be issued by any subsequent sequence of events
that contains neither a 200 `files/` poll response with `gcodeAnalysis.progress`
nor the explicit "print" override; once such a poll response arrives while
waiting, the command is issued. -/
theorem C5_analysis_wait (d : Device) (loc : String)
    (hap : d.uploadAutoPrint = true) (hsd : storeOnSd d = false)
    (hrw : d.gcodeAnalysisRequiresWait = true) (hgs : d.gcodeAnalysisSupported = true)
    (hfq : d.forcedQueue = false) :
    (onUploadFinishedOk d loc).2 = []
    ∧ (onUploadFinishedOk d loc).1.waitingForAnalysis = true
    ∧ resolveUploadEndPoint d loc ∈ (onUploadFinishedOk d loc).1.pollingEndPoints
    ∧ (∀ evs : List ProtocolEvent, (∀ ev ∈ evs, analysisTrigger ev = false) →
        (protocolRun (onUploadFinishedOk d loc).1 evs).2 = [])
    ∧ (∀ (dA : Device) (ep : String), dA.waitingForAnalysis = true →
        (fileInfoResponseStep dA ep 200 true).2 = [selectAndPrintCmd dA ep]) := by
  have hwfa : waitForAnalysis d = true := by
    simp [waitForAnalysis, hrw, hgs, hsd]
  have hmain : onUploadFinishedOk d loc =
      ({ d with
           waitingMessageShown := true,
           waitingForAnalysis := true,
           pollingEndPoints := d.pollingEndPoints ++ [resolveUploadEndPoint d loc] }, []) := by
    unfold onUploadFinishedOk
    simp [hap, hfq, hwfa]
  refine ⟨by rw [hmain], by rw [hmain], ?_, ?_, ?_⟩
  · rw [hmain]
    simp
  · intro evs h
    exact protocolRun_no_trigger_no_commands evs _ h
  · intro dA ep hw
    unfold fileInfoResponseStep
    simp [hw]

/-- Witness for C5: a concrete device with PrintTimeGenius analysis required,
a concrete upload, and a concrete trigger-free event trace. -/
def analysisDevice : Device :=
  { connectedDevice with gcodeAnalysisRequiresWait := true, gcodeAnalysisSupported := true }

theorem C5_witness :
    (onUploadFinishedOk analysisDevice "files/local/model.gcode").2 = []
    ∧ (onUploadFinishedOk analysisDevice "files/local/model.gcode").1.waitingForAnalysis = true
    ∧ resolveUploadEndPoint analysisDevice "files/local/model.gcode"
        ∈ (onUploadFinishedOk analysisDevice "files/local/model.gcode").1.pollingEndPoints
    ∧ (protocolRun (onUploadFinishedOk analysisDevice "files/local/model.gcode").1
        [.filePoll "files/local/model.gcode" 200 false, .userAction "cancel"]).2 = [] := by
  have h := C5_analysis_wait analysisDevice "files/local/model.gcode" rfl (by decide) rfl rfl rfl
  exact ⟨h.1, h.2.1, h.2.2.1, h.2.2.2.1 _ (by decide)⟩

/-! ### Top-level request dispatch and timeout handling (`_onRequestFinished`
lines 931-958 plus the GET endpoint branches) -/

inductive ReplyError
  | noError
  | timeoutError
  | otherError
deriving DecidableEq, Inhabited

/-- The GET endpoint branches of `_onRequestFinished` handled by this
embedding, with their parsed payloads (responses are matched back to their
purpose by substring-testing the request URL). -/
inductive ReplyContent
  | printerStatus (p : PrinterPayload)
  | jobStatus (p : JobPayload)
  | printerProfiles (p : ProfilesPayload)
  | fileInfo (endPoint : String) (gcodeAnalysisHasProgress : Bool)
deriving Inhabited

/-- A finished network reply as seen by `_onRequestFinished`: a transport
timeout, a reply without an HTTP status attribute (the handler returns at line
958), or a reply with a status code and an endpoint payload. -/
inductive GetReply
  | timeoutReply
  | emptyReply (err : ReplyError)
  | reply (err : ReplyError) (status : Nat) (c : ReplyContent)
deriving Inhabited

def GetReply.networkError : GetReply → ReplyError
  | .timeoutReply => .timeoutError
  | .emptyReply e => e
  | .reply e _ _ => e

/-- Lines 932-936: on a transport timeout, save the current connection state
(overwriting any previously saved value) and enter Error. -/
def timeoutStep (d : Device) : Device :=
  { d with
      connectionStateBeforeTimeout := some d.connectionState,
      connectionState := .error }

/-- Lines 938-950: on the first no-error reply after a timeout, restore the
saved state and clear it. The saved value is consulted with Python truthiness
(`None` and `Closed` are falsy). -/
def restoreAfterTimeout (d : Device) : Device :=
  if connStateTruthy d.connectionStateBeforeTimeout then
    { d with
        connectionState := d.connectionStateBeforeTimeout.getD d.connectionState,
        connectionStateBeforeTimeout := none }
  else d

/-- Model of `_onRequestFinished` for GET replies: the timeout branch returns
immediately; otherwise the restore runs for no-error replies, a reply without a
status code returns, and the remaining replies dispatch on the request URL. -/
def onRequestFinishedGet (d : Device) : GetReply → StepResult
  | .timeoutReply => { device := timeoutStep d }
  | .emptyReply e =>
    { device := if e = .noError then restoreAfterTimeout d else d }
  | .reply e status c =>
    let d1 := if e = .noError then restoreAfterTimeout d else d
    match c with
    | .printerStatus p => { device := printerResponseStep d1 status p }
    | .jobStatus p => jobResponseStep d1 status p
    | .printerProfiles p => profilesResponseStep d1 status p
    | .fileInfo ep hp =>
      let r := fileInfoResponseStep d1 ep status hp
      { device := r.1, commands := r.2 }

/-! ### Connection-field preservation lemmas -/

/-- The pair of connection-related fields tracked by claim C2. -/
def connFields (d : Device) : UnifiedConnectionState × Option UnifiedConnectionState :=
  (d.connectionState, d.connectionStateBeforeTimeout)

theorem connFields_modifyPrinter0 (d : Device) (f : PrinterModel → PrinterModel) :
    connFields (modifyPrinter0 d f) = connFields d := by
  unfold modifyPrinter0
  rcases hp : d.printers with _ | ⟨p, rest⟩ <;> simp [connFields]

theorem connFields_createPrinterList (d : Device) :
    connFields (createPrinterList d) = connFields d := rfl

theorem connFields_setOffline (d : Device) (reason : String) :
    connFields (setOfflineDevice d reason) = connFields d := by
  unfold setOfflineDevice
  rcases hp : d.printers with _ | ⟨p, rest⟩
  · rfl
  · by_cases h : p.state ≠ "offline" <;> simp [h, connFields]

theorem connFields_enableCommands (d : Device) :
    connFields (enableCommands d) = connFields d := by
  unfold enableCommands
  by_cases h : d.acceptsCommands <;> simp [h, connFields]

theorem connFields_promoteConnecting (d : Device)
    (h : d.connectionState ≠ .connecting) :
    connFields (promoteConnecting d) = connFields d := by
  unfold promoteConnecting
  simp [h]

theorem connState_enableCommands (d : Device) :
    (enableCommands d).connectionState = d.connectionState :=
  congrArg Prod.fst (connFields_enableCommands d)

theorem connFields_processTemperature (d : Device) (temp : List (String × ToolTemps)) :
    connFields (processTemperature d temp) = connFields d := by
  unfold processTemperature
  rw [connFields_modifyPrinter0]
  by_cases hset : d.numberOfExtrudersSet
  · simp [hset]
  · simp only [hset, Bool.false_eq_true, not_false_eq_true, Bool.not_false, if_true]
    by_cases hc : countToolsFrom temp temp.length 0 > 1 <;>
      by_cases hz : countToolsFrom temp temp.length 0 > 0 <;>
        simp [hc, hz, connFields, createPrinterList]

theorem connFields_applyTemperature (d : Device) (t : Option (List (String × ToolTemps))) :
    connFields (applyTemperature d t) = connFields d := by
  cases t with
  | none => rfl
  | some temp => exact connFields_processTemperature d temp

theorem connFields_updatePrinterState (d : Device) (s : String) :
    connFields (updatePrinterState d s) = connFields d :=
  connFields_modifyPrinter0 d _

theorem connFields_printerResponseStep (d : Device) (status : Nat) (p : PrinterPayload)
    (h : d.connectionState ≠ .connecting) :
    connFields (printerResponseStep d status p) = connFields d := by
  have hguard : connFields (if d.printers.isEmpty then createPrinterList d else d)
      = connFields d := by
    by_cases hp : d.printers.isEmpty <;> simp [hp, connFields_createPrinterList]
  have hguardState : (if d.printers.isEmpty then createPrinterList d else d).connectionState
      = d.connectionState := congrArg Prod.fst hguard
  unfold printerResponseStep
  by_cases h200 : status = 200
  · simp only [h200, if_pos rfl]
    show connFields ({ updatePrinterState _ _ with updateInterval := updateFastInterval })
        = connFields d
    have : connFields ({ updatePrinterState
        (applyTemperature
          (promoteConnecting (enableCommands (if d.printers.isEmpty then createPrinterList d else d)))
          p.temperature)
        (payloadPrinterState p) with updateInterval := updateFastInterval } : Device)
        = connFields (updatePrinterState
          (applyTemperature
            (promoteConnecting (enableCommands (if d.printers.isEmpty then createPrinterList d else d)))
            p.temperature)
          (payloadPrinterState p)) := rfl
    rw [this, connFields_updatePrinterState, connFields_applyTemperature,
      connFields_promoteConnecting, connFields_enableCommands, hguard]
    rw [connState_enableCommands, hguardState]
    exact h
  · simp only [h200, if_false]
    by_cases h1 : status = 401 ∨ status = 403
    · simp only [h1, if_pos, connFields_setOffline, hguard]
    · simp only [h1, if_false]
      by_cases h2 : status = 409
      · simp only [h2, eq_self_iff_true, if_true, connFields_setOffline]
        rw [connFields_promoteConnecting, hguard]
        rw [hguardState]
        exact h
      · simp only [h2, if_false]
        by_cases h3 : status = 502 ∨ status = 503
        · simp only [h3, if_pos, connFields_setOffline, hguard]
        · simp only [h3, if_false]
          show connFields ({ setOfflineDevice _ "" with updateInterval := updateSlowInterval })
              = connFields d
          have : connFields ({ setOfflineDevice
              (if d.printers.isEmpty then createPrinterList d else d) "" with
              updateInterval := updateSlowInterval } : Device)
              = connFields (setOfflineDevice
                (if d.printers.isEmpty then createPrinterList d else d) "") := rfl
          rw [this, connFields_setOffline, hguard]

theorem connFields_writeJob (d : Device) (printer : PrinterModel) (pj : PrintJobModel) :
    connFields (writeJob d printer pj) = connFields d := by
  unfold writeJob
  rcases hp : d.printers with _ | ⟨q, rest⟩ <;> simp [connFields]

theorem connFields_jobTail (d0 : Device) (printer1 : PrinterModel) (pj2 : PrintJobModel)
    (cv : Option (Option Rat)) (fn : Option String) :
    connFields ((jobTail d0 printer1 pj2 cv fn).device) = connFields d0 := by
  rcases cv with _ | completionVal
  · exact connFields_writeJob _ _ _
  · rcases fn with _ | nm
    · show connFields (writeJob d0 printer1 pj2) = connFields d0
      exact connFields_writeJob _ _ _
    · simp only [jobTail]
      by_cases hcond : ((writeJob
          { writeJob d0 printer1 pj2 with streamingMessageShown :=
              (truthyQ completionVal && (pj2.state = "pre_print" : Bool)) }
          printer1 { pj2 with name := nm }).waitingForPrinter
          && (printer1.state = "idle" : Bool)) = true
      · rw [if_pos hcond]
        show connFields (writeJob
            { writeJob d0 printer1 pj2 with streamingMessageShown :=
                (truthyQ completionVal && (pj2.state = "pre_print" : Bool)) }
            printer1 { pj2 with name := nm }) = connFields d0
        rw [connFields_writeJob]
        show connFields (writeJob d0 printer1 pj2) = connFields d0
        exact connFields_writeJob _ _ _
      · rw [if_neg hcond]
        show connFields (writeJob
            { writeJob d0 printer1 pj2 with streamingMessageShown :=
                (truthyQ completionVal && (pj2.state = "pre_print" : Bool)) }
            printer1 { pj2 with name := nm }) = connFields d0
        rw [connFields_writeJob]
        show connFields (writeJob d0 printer1 pj2) = connFields d0
        exact connFields_writeJob _ _ _

theorem connFields_jobResponseStep (d0 : Device) (status : Nat) (p : JobPayload) :
    connFields ((jobResponseStep d0 status p).device) = connFields d0 := by
  unfold jobResponseStep
  by_cases hp : d0.printers.isEmpty = true
  · rw [if_pos hp]
  · rw [if_neg hp]
    by_cases h200 : status = 200
    · rw [if_pos h200]
      exact connFields_jobTail _ _ _ _ _
    · rw [if_neg h200]
      by_cases h1 : status = 401 ∨ status = 403
      · rw [if_pos h1]
        exact connFields_setOffline _ _
      · rw [if_neg h1]
        by_cases h2 : status = 502 ∨ status = 503
        · rw [if_pos h2]
          exact connFields_setOffline _ _
        · rw [if_neg h2]

theorem connFields_applyProfiles (d : Device) (profs : List (String × ProfileObj)) :
    connFields (applyProfiles d profs) = connFields d := by
  induction profs with
  | nil => rfl
  | cons kv rest ih =>
    rcases kv with ⟨k, prof⟩
    unfold applyProfiles
    by_cases hc : prof.current = true
    · rw [if_pos hc]
      rfl
    · rw [if_neg hc]
      exact ih

theorem connFields_profilesResponseStep (d : Device) (status : Nat) (p : ProfilesPayload) :
    connFields ((profilesResponseStep d status p).device) = connFields d := by
  unfold profilesResponseStep
  by_cases h200 : status = 200
  · rw [if_pos h200]
    rcases hpr : p.profiles with _ | profs
    · rfl
    · exact connFields_applyProfiles _ _
  · rw [if_neg h200]

theorem connFields_fileInfoResponseStep (d : Device) (ep : String) (status : Nat)
    (hp : Bool) : connFields ((fileInfoResponseStep d ep status hp).1) = connFields d := by
  unfold fileInfoResponseStep
  by_cases h200 : status = 200
  · rw [if_pos h200]
    by_cases hw : (!d.waitingForAnalysis) = true
    · rw [if_pos hw]
    · rw [if_neg hw]
      cases hp <;> simp [connFields]
  · rw [if_neg h200]

/-! ### Claim C2 -/

/-- C2 counterexample: a Connected device that suffers two consecutive
timeouts followed by a successful printer-status response ends in Error, not in
the Connected state held before the first timeout — the second timeout
overwrote the saved state with the current state, which was already Error. -/
theorem C2_counterexample :
    ((onRequestFinishedGet (onRequestFinishedGet
        (onRequestFinishedGet connectedDevice .timeoutReply).device .timeoutReply).device
        (.reply .noError 200 (.printerStatus emptyPrinterPayload))).device.connectionState
      = UnifiedConnectionState.error)
    ∧ ((onRequestFinishedGet (onRequestFinishedGet
        (onRequestFinishedGet connectedDevice .timeoutReply).device .timeoutReply).device
        (.reply .noError 200 (.printerStatus emptyPrinterPayload))).device.connectionState
      ≠ UnifiedConnectionState.connected) := by
  decide

/-- C2 amended: every transport timeout overwrites `preTimeoutConnectionState`
with the current state, so after two consecutive timeouts the saved state is
Error; the next no-error reply therefore restores Error (not the state held
before the first timeout) and clears the saved state. -/
theorem C2_timeout_restore_amended (d : Device) (r : GetReply)
    (hr : r.networkError = ReplyError.noError) :
    ((onRequestFinishedGet (onRequestFinishedGet
        (onRequestFinishedGet d .timeoutReply).device .timeoutReply).device r).device.connectionState
      = UnifiedConnectionState.error)
    ∧ ((onRequestFinishedGet (onRequestFinishedGet
        (onRequestFinishedGet d .timeoutReply).device .timeoutReply).device
        r).device.connectionStateBeforeTimeout
      = none) := by
  have hDconn : (restoreAfterTimeout (timeoutStep (timeoutStep d))).connectionState
      = UnifiedConnectionState.error := rfl
  have hDsaved : (restoreAfterTimeout (timeoutStep (timeoutStep d))).connectionStateBeforeTimeout
      = none := rfl
  have hne : (restoreAfterTimeout (timeoutStep (timeoutStep d))).connectionState
      ≠ UnifiedConnectionState.connecting := by
    rw [hDconn]
    decide
  rcases r with _ | e | ⟨e, status, c⟩
  · exact absurd hr (by decide)
  · have he : e = ReplyError.noError := hr
    subst he
    exact ⟨rfl, rfl⟩
  · have he : e = ReplyError.noError := hr
    subst he
    cases c with
    | printerStatus p =>
      have hcf := connFields_printerResponseStep
        (restoreAfterTimeout (timeoutStep (timeoutStep d))) status p hne
      constructor
      · show (printerResponseStep
            (restoreAfterTimeout (timeoutStep (timeoutStep d))) status p).connectionState = _
        have h1 := congrArg Prod.fst hcf
        simp only [connFields] at h1
        rw [h1, hDconn]
      · show (printerResponseStep
            (restoreAfterTimeout (timeoutStep (timeoutStep d))) status
            p).connectionStateBeforeTimeout = _
        have h2 := congrArg Prod.snd hcf
        simp only [connFields] at h2
        rw [h2, hDsaved]
    | jobStatus p =>
      have hcf := connFields_jobResponseStep
        (restoreAfterTimeout (timeoutStep (timeoutStep d))) status p
      constructor
      · show ((jobResponseStep
            (restoreAfterTimeout (timeoutStep (timeoutStep d))) status
            p).device).connectionState = _
        have h1 := congrArg Prod.fst hcf
        simp only [connFields] at h1
        rw [h1, hDconn]
      · show ((jobResponseStep
            (restoreAfterTimeout (timeoutStep (timeoutStep d))) status
            p).device).connectionStateBeforeTimeout = _
        have h2 := congrArg Prod.snd hcf
        simp only [connFields] at h2
        rw [h2, hDsaved]
    | printerProfiles p =>
      have hcf := connFields_profilesResponseStep
        (restoreAfterTimeout (timeoutStep (timeoutStep d))) status p
      constructor
      · show ((profilesResponseStep
            (restoreAfterTimeout (timeoutStep (timeoutStep d))) status
            p).device).connectionState = _
        have h1 := congrArg Prod.fst hcf
        simp only [connFields] at h1
        rw [h1, hDconn]
      · show ((profilesResponseStep
            (restoreAfterTimeout (timeoutStep (timeoutStep d))) status
            p).device).connectionStateBeforeTimeout = _
        have h2 := congrArg Prod.snd hcf
        simp only [connFields] at h2
        rw [h2, hDsaved]
    | fileInfo ep hp =>
      have hcf := connFields_fileInfoResponseStep
        (restoreAfterTimeout (timeoutStep (timeoutStep d))) ep status hp
      constructor
      · show ((fileInfoResponseStep
            (restoreAfterTimeout (timeoutStep (timeoutStep d))) ep status
            hp).1).connectionState = _
        have h1 := congrArg Prod.fst hcf
        simp only [connFields] at h1
        rw [h1, hDconn]
      · show ((fileInfoResponseStep
            (restoreAfterTimeout (timeoutStep (timeoutStep d))) ep status
            hp).1).connectionStateBeforeTimeout = _
        have h2 := congrArg Prod.snd hcf
        simp only [connFields] at h2
        rw [h2, hDsaved]

/-- Witness for C2 at a concrete device and reply. -/
theorem C2_witness :
    ((onRequestFinishedGet (onRequestFinishedGet
        (onRequestFinishedGet connectedDevice .timeoutReply).device .timeoutReply).device
        (.reply .noError 200 (.jobStatus malformedJobPayload))).device.connectionState
      = UnifiedConnectionState.error)
    ∧ ((onRequestFinishedGet (onRequestFinishedGet
        (onRequestFinishedGet connectedDevice .timeoutReply).device .timeoutReply).device
        (.reply .noError 200 (.jobStatus malformedJobPayload))).device.connectionStateBeforeTimeout
      = none) :=
  C2_timeout_restore_amended connectedDevice
    (.reply .noError 200 (.jobStatus malformedJobPayload)) rfl

/-! ### Claim C7: extruder-count probing -/

/-- Decode a decimal digit character back to its value. -/
def charToDigit (c : Char) : Nat := c.toNat - 48

/-- Decode a decimal character string back to a number (left inverse of
`decChars`). -/
def decVal (l : List Char) : Nat := l.foldl (fun acc c => 10 * acc + charToDigit c) 0

theorem charToDigit_digitChar : ∀ d : Nat, d < 10 → charToDigit (Nat.digitChar d) = d := by
  decide

theorem decVal_decCharsAux : ∀ fuel n : Nat, n ≤ fuel → decVal (decCharsAux fuel n) = n := by
  intro fuel
  induction fuel with
  | zero =>
    intro n h
    have : n = 0 := Nat.le_zero.mp h
    subst this
    rfl
  | succ f ih =>
    intro n h
    by_cases h0 : n = 0
    · subst h0
      rfl
    · have hlt : n / 10 < n := Nat.div_lt_self (Nat.pos_of_ne_zero h0) (by norm_num)
      have hle : n / 10 ≤ f := by omega
      show decVal (decCharsAux (f + 1) n) = n
      unfold decCharsAux
      rw [if_neg h0]
      unfold decVal
      rw [List.foldl_append]
      show 10 * (decVal (decCharsAux f (n / 10))) + charToDigit (Nat.digitChar (n % 10)) = n
      rw [ih _ hle, charToDigit_digitChar _ (Nat.mod_lt n (by norm_num))]
      omega

theorem decVal_decChars (n : Nat) : decVal (decChars n) = n := by
  unfold decChars
  by_cases h0 : n = 0
  · subst h0
    rfl
  · rw [if_neg h0]
    exact decVal_decCharsAux n n le_rfl

theorem decChars_injective : Function.Injective decChars :=
  Function.LeftInverse.injective decVal_decChars

theorem toolKeyStr_injective : Function.Injective toolKeyStr := by
  intro m n h
  unfold toolKeyStr at h
  injection h with h
  exact decChars_injective (List.append_cancel_left h)

theorem countToolsFrom_go (temp : List (String × ToolTemps)) (N : Nat)
    (h1 : ∀ i, i < N → tempHasKey temp (toolKeyStr i) = true)
    (h2 : tempHasKey temp (toolKeyStr N) = false) :
    ∀ fuel s : Nat, s ≤ N → N - s ≤ fuel → countToolsFrom temp fuel s = N := by
  intro fuel
  induction fuel with
  | zero =>
    intro s hs hf
    have : s = N := by omega
    subst this
    rfl
  | succ f ih =>
    intro s hs hf
    by_cases hsN : s = N
    · rw [hsN]
      show (if tempHasKey temp (toolKeyStr N) = true then countToolsFrom temp f (N + 1) else N)
          = N
      rw [h2]
      simp
    · have hlt : s < N := lt_of_le_of_ne hs hsN
      show (if tempHasKey temp (toolKeyStr s) = true then countToolsFrom temp f (s + 1) else s)
          = N
      rw [h1 s hlt]
      simp only [if_true]
      exact ih (s + 1) hlt (by omega)

theorem toolKeys_length_le (temp : List (String × ToolTemps)) (N : Nat)
    (h1 : ∀ i, i < N → tempHasKey temp (toolKeyStr i) = true) : N ≤ temp.length := by
  have hnodup : ((List.range N).map toolKeyStr).Nodup :=
    (List.nodup_range N).map toolKeyStr_injective
  have hsub : ((List.range N).map toolKeyStr) ⊆ temp.map Prod.fst := by
    intro a ha
    rw [List.mem_map] at ha
    obtain ⟨i, hi, rfl⟩ := ha
    rw [List.mem_range] at hi
    have hmem := h1 i hi
    unfold tempHasKey at hmem
    rw [List.any_eq_true] at hmem
    obtain ⟨kv, hkv, heq⟩ := hmem
    rw [beq_iff_eq] at heq
    rw [List.mem_map]
    exact ⟨kv, hkv, heq⟩
  have hperm := List.subperm_of_subset hnodup hsub
  have hlen := hperm.length_le
  simpa using hlen

/-- The probing loop computes exactly `N` when `tool0 .. tool(N-1)` are keys of
the temperature object and `toolN` is not. -/
theorem countToolsFrom_spec (temp : List (String × ToolTemps)) (N : Nat)
    (h1 : ∀ i, i < N → tempHasKey temp (toolKeyStr i) = true)
    (h2 : tempHasKey temp (toolKeyStr N) = false) :
    countToolsFrom temp temp.length 0 = N :=
  countToolsFrom_go temp N h1 h2 temp.length 0 (Nat.zero_le N)
    (by have := toolKeys_length_le temp N h1; omega)

theorem modifyPrinter0_numberOfExtruders (d : Device) (f : PrinterModel → PrinterModel) :
    (modifyPrinter0 d f).numberOfExtruders = d.numberOfExtruders := by
  unfold modifyPrinter0
  rcases hp : d.printers with _ | ⟨p, rest⟩ <;> simp

theorem modifyPrinter0_head (d : Device) (f : PrinterModel → PrinterModel)
    (h : d.printers ≠ []) :
    (modifyPrinter0 d f).printers.headD default = f (d.printers.headD default) := by
  unfold modifyPrinter0
  rcases hp : d.printers with _ | ⟨p, rest⟩
  · exact absurd hp h
  · simp [hp]

theorem enableCommands_extruderFields (d : Device) :
    (enableCommands d).numberOfExtruders = d.numberOfExtruders ∧
    (enableCommands d).numberOfExtrudersSet = d.numberOfExtrudersSet := by
  unfold enableCommands
  by_cases h : d.acceptsCommands <;> simp [h]

theorem promoteConnecting_extruderFields (d : Device) :
    (promoteConnecting d).numberOfExtruders = d.numberOfExtruders ∧
    (promoteConnecting d).numberOfExtrudersSet = d.numberOfExtrudersSet := by
  unfold promoteConnecting
  by_cases h : d.connectionState = UnifiedConnectionState.connecting <;> simp [h]

theorem processTemperature_spec (d : Device) (temp : List (String × ToolTemps)) (N : Nat)
    (hset : d.numberOfExtrudersSet = false)
    (hcount : countToolsFrom temp temp.length 0 = N) :
    (processTemperature d temp).numberOfExtruders = N ∧
    (1 < N → ((processTemperature d temp).printers.headD default).extruders.length = N) := by
  constructor
  · simp only [processTemperature, hset, hcount, Bool.not_false, if_true]
    rw [modifyPrinter0_numberOfExtruders]
    by_cases hN1 : N > 1 <;> by_cases hN0 : N > 0 <;>
      simp [hN1, hN0, createPrinterList]
  · intro hN1
    have hN0 : N > 0 := by omega
    simp only [processTemperature, hset, hcount, Bool.not_false, if_true, hN1, hN0]
    rw [modifyPrinter0_head _ _ (by simp [createPrinterList])]
    rcases hbed : tempLookup temp "bed" with _ | bt <;>
      simp [hbed, createPrinterList]

/-- C7: on the first printer-status 200 response with a temperature object
containing keys `tool0 .. tool(N-1)` but not `toolN`, the inferred extruder
count is exactly `N`, and when `N` exceeds one the printer view model is
rebuilt with exactly `N` extruder entries. -/
theorem C7_extruder_count (d : Device) (temp : List (String × ToolTemps))
    (stOpt : Option StateFlags) (N : Nat)
    (hset : d.numberOfExtrudersSet = false)
    (h1 : ∀ i, i < N → tempHasKey temp (toolKeyStr i) = true)
    (h2 : tempHasKey temp (toolKeyStr N) = false) :
    (printerResponseStep d 200 { temperature := some temp, state := stOpt }).numberOfExtruders
        = N
    ∧ (1 < N →
        ((printerResponseStep d 200
            { temperature := some temp, state := stOpt }).printers.headD
          default).extruders.length = N) := by
  have hddset : (if d.printers.isEmpty then createPrinterList d else d).numberOfExtrudersSet
      = false := by
    by_cases hp : d.printers.isEmpty <;> simp [hp, createPrinterList, hset]
  have hpe : (promoteConnecting (enableCommands
      (if d.printers.isEmpty then createPrinterList d else d))).numberOfExtrudersSet = false := by
    rw [(promoteConnecting_extruderFields _).2, (enableCommands_extruderFields _).2]
    exact hddset
  have hspec := processTemperature_spec
    (promoteConnecting (enableCommands (if d.printers.isEmpty then createPrinterList d else d)))
    temp N hpe (countToolsFrom_spec temp N h1 h2)
  have hne : (processTemperature
      (promoteConnecting (enableCommands (if d.printers.isEmpty then createPrinterList d else d)))
      temp).printers ≠ [] := by
    apply processTemperature_printers_ne
    rw [promoteConnecting_printers, enableCommands_printers]
    exact printersNonEmptyAfterGuard d
  constructor
  · show (printerStep200 _ _).numberOfExtruders = N
    show (updatePrinterState (processTemperature
        (promoteConnecting (enableCommands (if d.printers.isEmpty then createPrinterList d else d)))
        temp) (payloadPrinterState { temperature := some temp, state := stOpt })).numberOfExtruders
      = N
    rw [updatePrinterState, modifyPrinter0_numberOfExtruders]
    exact hspec.1
  · intro hN1
    show ((printerStep200 _ _).printers.headD default).extruders.length = N
    show (((updatePrinterState (processTemperature
        (promoteConnecting (enableCommands (if d.printers.isEmpty then createPrinterList d else d)))
        temp) (payloadPrinterState { temperature := some temp, state := stOpt })).printers.headD
          default)).extruders.length = N
    rw [updatePrinterState, modifyPrinter0_head _ _ hne]
    exact hspec.2 hN1

/-- Witness for C7: first payload with `tool0`, `tool1` and `bed` keys but no
`tool2` resolves to 2 extruders and a rebuilt two-extruder printer model. -/
def twoToolTemp : List (String × ToolTemps) :=
  [("tool0", { actual := some 210, target := some 215 }),
   ("tool1", { actual := some 180, target := some 190 }),
   ("bed", { actual := some 60, target := some 60 })]

def firstContactDevice : Device :=
  { connectedDevice with numberOfExtrudersSet := false }

theorem C7_witness :
    (printerResponseStep firstContactDevice 200
        { temperature := some twoToolTemp, state := none }).numberOfExtruders = 2
    ∧ ((printerResponseStep firstContactDevice 200
        { temperature := some twoToolTemp, state := none }).printers.headD
          default).extruders.length = 2 := by
  have h := C7_extruder_count firstContactDevice twoToolTemp none 2 rfl (by decide) (by decide)
  exact ⟨h.1, h.2 (by norm_num)⟩

/-! ### Claim C8: manual-instance store round trip
(`OctoPrintOutputDevicePlugin.py` lines 256-301) -/

structure ManualInstanceProps where
  address : String
  port : Int
  path : String
  useHttps : Bool
  userName : String
  password : String
deriving DecidableEq, Inhabited

/-- The `_manual_instances` dict: insertion-ordered, unique keys. -/
abbrev ManualInstances := List (String × ManualInstanceProps)

def hasKey (m : ManualInstances) (k : String) : Bool := m.any (fun kv => kv.1 == k)

/-- Python dict item assignment: replace the value in place when the key
exists (keeping its position), append otherwise. -/
def dictAssign (m : ManualInstances) (k : String) (v : ManualInstanceProps) :
    ManualInstances :=
  if m.any (fun kv => kv.1 == k) then m.map (fun kv => if kv.1 == k then (k, v) else kv)
  else m ++ [(k, v)]

/-- Python `dict.pop(name, None)`. -/
def dictPop (m : ManualInstances) (k : String) : ManualInstances :=
  m.filter (fun kv => kv.1 != k)

/-- JSON string escaping as `json.dumps` performs it for the characters that
occur in instance names and connection properties (backslash and double quote;
control characters and non-ASCII escapes are not exercised here). -/
def jsonEscapeChar (c : Char) : List Char :=
  if c = '\\' then ['\\', '\\']
  else if c = '"' then ['\\', '"']
  else [c]

def jsonString (s : String) : String :=
  "\"" ++ String.mk (s.data.foldr (fun c acc => jsonEscapeChar c ++ acc) []) ++ "\""

def jsonBool (b : Bool) : String := if b then "true" else "false"

def jsonInt (i : Int) : String :=
  if i < 0 then "-" ++ String.mk (decChars i.natAbs) else String.mk (decChars i.natAbs)

/-- Serialization by `json.dumps` of one manual-instance properties dict, keys in the insertion
order used by `addManualInstance` (lines 266-273), default separators. -/
def dumpProps (p : ManualInstanceProps) : String :=
  "\x7b" ++ jsonString "address" ++ ": " ++ jsonString p.address
    ++ ", " ++ jsonString "port" ++ ": " ++ jsonInt p.port
    ++ ", " ++ jsonString "path" ++ ": " ++ jsonString p.path
    ++ ", " ++ jsonString "useHttps" ++ ": " ++ jsonBool p.useHttps
    ++ ", " ++ jsonString "userName" ++ ": " ++ jsonString p.userName
    ++ ", " ++ jsonString "password" ++ ": " ++ jsonString p.password
    ++ "\x7d"

/-- Serialization `json.dumps(self._manual_instances)`: keys in dict insertion order. -/
def dumpManualInstances (m : ManualInstances) : String :=
  "\x7b" ++ String.intercalate ", "
      (m.map (fun kv => jsonString kv.1 ++ ": " ++ dumpProps kv.2)) ++ "\x7d"

/-- The plugin state touched by the manual-instance operations: the in-memory
dict, the persisted `octoprint/manual_instances` preference string, and the ids
of the created device objects. -/
structure PluginState where
  manualInstances : ManualInstances
  preferenceValue : String
  instanceIds : List String
deriving DecidableEq, Inhabited

/-- Model of `addManualInstance` (lines 256-290): store the properties in the dict,
persist its `json.dumps`, then replace any existing device instance of the same
name (`removeInstance` followed by `addInstance`, which re-keys the instance at
the end of the instance dict). -/
def addManualInstance (st : PluginState) (name address : String) (port : Int)
    (path : String) (useHttps : Bool) (userName password : String) : PluginState :=
  let m := dictAssign st.manualInstances name
    { address := address, port := port, path := path, useHttps := useHttps,
      userName := userName, password := password }
  let ids := if st.instanceIds.contains name then
      st.instanceIds.filter (fun i => i != name)
    else st.instanceIds
  { manualInstances := m,
    preferenceValue := dumpManualInstances m,
    instanceIds := ids ++ [name] }

/-- Model of `removeManualInstance` (lines 292-301): drop the device instance if
present, then pop the dict entry and persist the serialized dict again (the
preference is only rewritten when the name was actually stored). -/
def removeManualInstance (st : PluginState) (name : String) : PluginState :=
  let st1 := if st.instanceIds.contains name then
      { st with instanceIds := st.instanceIds.filter (fun i => i != name) } else st
  if hasKey st.manualInstances name then
    { st1 with
        manualInstances := dictPop st.manualInstances name,
        preferenceValue := dumpManualInstances (dictPop st.manualInstances name) }
  else st1

theorem dictAssign_new (m : ManualInstances) (k : String) (v : ManualInstanceProps)
    (h : hasKey m k = false) : dictAssign m k v = m ++ [(k, v)] := by
  unfold dictAssign
  unfold hasKey at h
  rw [h]
  simp

theorem dictPop_append_new (m : ManualInstances) (k : String) (v : ManualInstanceProps)
    (h : hasKey m k = false) : dictPop (m ++ [(k, v)]) k = m := by
  unfold dictPop
  rw [List.filter_append]
  have h2 : List.filter (fun kv => kv.1 != k) [(k, v)] = [] := by
    simp
  rw [h2, List.append_nil]
  apply List.filter_eq_self.mpr
  intro kv hkv
  unfold hasKey at h
  rw [List.any_eq_false] at h
  have := h kv hkv
  simpa using this

theorem hasKey_append_self (m : ManualInstances) (k : String) (v : ManualInstanceProps) :
    hasKey (m ++ [(k, v)]) k = true := by
  unfold hasKey
  rw [List.any_eq_true]
  exact ⟨(k, v), by simp, by simp⟩

theorem removeManualInstance_found (st : PluginState) (name : String)
    (h : hasKey st.manualInstances name = true) :
    (removeManualInstance st name).manualInstances = dictPop st.manualInstances name ∧
    (removeManualInstance st name).preferenceValue
      = dumpManualInstances (dictPop st.manualInstances name) := by
  unfold removeManualInstance
  rw [if_pos h]
  exact ⟨rfl, rfl⟩

/-- C8: starting from any store state in which no manual instance named `name`
exists and whose persisted value is the serialization of the in-memory dict
(which holds whenever the value was last written by this code, including the
`{}` default), adding a manual instance and then removing it leaves the
persisted `octoprint/manual_instances` value byte-for-byte unchanged, and the
in-memory dict identical. -/
theorem C8_manual_instance_roundtrip (st : PluginState) (name address : String) (port : Int)
    (path : String) (useHttps : Bool) (userName password : String)
    (hnew : hasKey st.manualInstances name = false)
    (hpref : st.preferenceValue = dumpManualInstances st.manualInstances) :
    (removeManualInstance
      (addManualInstance st name address port path useHttps userName password)
      name).preferenceValue = st.preferenceValue
    ∧ (removeManualInstance
      (addManualInstance st name address port path useHttps userName password)
      name).manualInstances = st.manualInstances := by
  have hAssign : dictAssign st.manualInstances name
      { address := address, port := port, path := path, useHttps := useHttps,
        userName := userName, password := password }
      = st.manualInstances ++
        [(name, { address := address, port := port, path := path, useHttps := useHttps,
                  userName := userName, password := password })] :=
    dictAssign_new _ _ _ hnew
  have hA1 : (addManualInstance st name address port path useHttps userName
        password).manualInstances
      = st.manualInstances ++
        [(name, { address := address, port := port, path := path, useHttps := useHttps,
                  userName := userName, password := password })] := by
    show dictAssign st.manualInstances name _ = _
    exact hAssign
  have hfound : hasKey (addManualInstance st name address port path useHttps userName
      password).manualInstances name = true := by
    rw [hA1]
    exact hasKey_append_self _ _ _
  obtain ⟨hr1, hr2⟩ := removeManualInstance_found
    (addManualInstance st name address port path useHttps userName password) name hfound
  constructor
  · rw [hr2, hA1, dictPop_append_new _ _ _ hnew, hpref]
  · rw [hr1, hA1, dictPop_append_new _ _ _ hnew]

/-- Witness for C8 with the concrete arguments from the claim, over a store already
holding one other instance. -/
def samplePluginState : PluginState :=
  { manualInstances :=
      [("existing", { address := "10.0.0.2", port := 5000, path := "/", useHttps := false,
                      userName := "", password := "" })],
    preferenceValue := dumpManualInstances
      [("existing", { address := "10.0.0.2", port := 5000, path := "/", useHttps := false,
                      userName := "", password := "" })],
    instanceIds := ["existing"] }

theorem C8_witness :
    (removeManualInstance
      (addManualInstance samplePluginState "X" "1.2.3.4" 80 "/" false "u" "p")
      "X").preferenceValue = samplePluginState.preferenceValue :=
  (C8_manual_instance_roundtrip samplePluginState "X" "1.2.3.4" 80 "/" false "u" "p"
    (by decide) rfl).1

/-! ### Claim C9: `_validateIP` (OctoPrintOutputDevicePlugin.py lines 467-479)

The `ipaddress` standard-library collaborators are modelled explicitly below;
the control flow of `_validateIP` itself is parameterized over them. -/

inductive PyAddrError
  | addressValueError
  | otherError
deriving DecidableEq, Inhabited

structure IPLib (α β : Type) where
  parseV4 : String → Except PyAddrError α
  parseV6 : String → Except PyAddrError β
  isLinkLocal4 : α → Bool
  isLinkLocal6 : β → Bool
  str4 : α → String
  str6 : β → String

/-- Model of `_validateIP` (lines 467-479). The `IPv6Address` constructor is called
inside the `except AddressValueError:` handler of the same try statement; an
exception raised there is not caught by the sibling bare `except:` clause, so
it propagates out of `_validateIP`. The bare `except` covers only
non-AddressValueError exceptions raised by the `IPv4Address` call itself.
Address objects are always truthy, so the `if ip` test reduces to the
link-local check. -/
def validateIP {α β : Type} (lib : IPLib α β) (address : String) :
    Except PyAddrError String :=
  match lib.parseV4 address with
  | .ok ip => .ok (if !(lib.isLinkLocal4 ip) then lib.str4 ip else "")
  | .error .addressValueError =>
    match lib.parseV6 address with
    | .ok ip => .ok (if !(lib.isLinkLocal6 ip) then "[" ++ lib.str6 ip ++ "]" else "")
    | .error e => .error e
  | .error .otherError => .ok ""

structure IPv4Addr where
  a : Nat
  b : Nat
  c : Nat
  d : Nat
deriving DecidableEq, Inhabited

/-- Split a character list on a separator character (used instead of
`String.splitOn` so that concrete parses reduce in the kernel). -/
def splitOnChar (c : Char) : List Char → List (List Char)
  | [] => [[]]
  | x :: rest =>
    let r := splitOnChar c rest
    if x = c then [] :: r
    else
      match r with
      | [] => [[x]]
      | h :: t => (x :: h) :: t

def isDecDigit (c : Char) : Bool := 48 ≤ c.toNat && c.toNat ≤ 57

/-- One dotted-quad octet as `ipaddress.IPv4Address` accepts it: one to three
decimal digits, no leading zero, value at most 255. -/
def parseOctet (cs : List Char) : Option Nat :=
  if cs.length = 0 ∨ cs.length > 3 then none
  else if !(cs.all isDecDigit) then none
  else if 1 < cs.length ∧ cs.headD '0' = '0' then none
  else
    let v := decVal cs
    if v ≤ 255 then some v else none

/-- Model of `ipaddress.IPv4Address` on a string: exactly four octets separated by
dots, else AddressValueError. -/
def pyParseIPv4 (s : String) : Except PyAddrError IPv4Addr :=
  match (splitOnChar '.' s.data).map parseOctet with
  | [some a, some b, some c, some d] => .ok { a := a, b := b, c := c, d := d }
  | _ => .error .addressValueError

/-- Model of `IPv4Address.is_link_local`: the 169.254.0.0/16 block. -/
def ipv4IsLinkLocal (ip : IPv4Addr) : Bool :=
  (ip.a = 169 : Bool) && (ip.b = 254 : Bool)

def natStr (n : Nat) : String := String.mk (decChars n)

/-- Model of `str(IPv4Address)`: dotted decimal. -/
def ipv4Str (ip : IPv4Addr) : String :=
  natStr ip.a ++ "." ++ natStr ip.b ++ "." ++ natStr ip.c ++ "." ++ natStr ip.d

/-- An IPv6 address as its eight 16-bit groups. -/
structure IPv6Addr where
  groups : List Nat
deriving DecidableEq, Inhabited

def isHexDigit (c : Char) : Bool :=
  (48 ≤ c.toNat && c.toNat ≤ 57) || (97 ≤ c.toNat && c.toNat ≤ 102)
    || (65 ≤ c.toNat && c.toNat ≤ 70)

def hexVal (c : Char) : Nat :=
  if 48 ≤ c.toNat && c.toNat ≤ 57 then c.toNat - 48
  else if 97 ≤ c.toNat && c.toNat ≤ 102 then c.toNat - 87
  else c.toNat - 55

/-- One hextet: one to four hexadecimal digits. -/
def parseHexGroup (cs : List Char) : Option Nat :=
  if cs.length = 0 ∨ cs.length > 4 then none
  else if !(cs.all isHexDigit) then none
  else some (cs.foldl (fun acc c => 16 * acc + hexVal c) 0)

/-- Expand colon-split parts into eight groups, resolving one `::`
compression. -/
def expandIPv6Parts (parts0 : List (List Char)) : Option (List Nat) :=
  let parts1 :=
    match parts0 with
    | [] :: [] :: rest => [] :: rest
    | _ => parts0
  let parts :=
    match parts1.reverse with
    | [] :: [] :: rest => ([] :: rest).reverse
    | _ => parts1
  let empties : Nat := (parts.filter (fun p => List.isEmpty p)).length
  if empties = 0 then
    if parts.length = 8 then parts.mapM parseHexGroup else none
  else if empties = 1 then
    let before := parts.takeWhile (fun p => !(List.isEmpty p))
    let after := (parts.dropWhile (fun p => !(List.isEmpty p))).drop 1
    if before.length + after.length ≤ 7 then
      match before.mapM parseHexGroup, after.mapM parseHexGroup with
      | some b, some a => some (b ++ List.replicate (8 - b.length - a.length) 0 ++ a)
      | _, _ => none
    else none
  else none

/-- Model of `ipaddress.IPv6Address` on a string: Python first requires at least three
colon-separated parts, then resolves the `::` compression and parses each
hextet. The embedded-IPv4 form (`::ffff:1.2.3.4`) and zone ids (`%eth0`),
which no theorem below exercises, are not modelled. -/
def pyParseIPv6 (s : String) : Except PyAddrError IPv6Addr :=
  let parts := splitOnChar ':' s.data
  if parts.length < 3 then .error .addressValueError
  else
    match expandIPv6Parts parts with
    | some gs => .ok { groups := gs }
    | none => .error .addressValueError

/-- Model of `IPv6Address.is_link_local`: the fe80::/10 block. -/
def ipv6IsLinkLocal (ip : IPv6Addr) : Bool :=
  ((ip.groups.headD 0) &&& 0xffc0) = 0xfe80

/-- The `ipaddress` library instantiated with the models above. The canonical
`str()` rendering of an IPv6 address (lowercase hex with `::` compression) is
left as a parameter: no theorem below depends on it. -/
def pyIPLib (str6impl : IPv6Addr → String) : IPLib IPv4Addr IPv6Addr :=
  { parseV4 := pyParseIPv4,
    parseV6 := pyParseIPv6,
    isLinkLocal4 := ipv4IsLinkLocal,
    isLinkLocal6 := ipv6IsLinkLocal,
    str4 := ipv4Str,
    str6 := str6impl }

/-- C9: the claim says `_validateIP` returns for every input string; in fact a
string that is neither a valid IPv4 nor a valid IPv6 address (here
`"999.999.999.999"`: octets above 255, and only one colon-part) makes the
`IPv6Address` call inside the `except AddressValueError` handler raise, and
that exception propagates out of `_validateIP`. The accepted behaviors of the
claim do hold: a link-local address yields `""` and a valid non-link-local
IPv4 address is returned as-is. -/
theorem C9_validateIP_raises (str6impl : IPv6Addr → String) :
    validateIP (pyIPLib str6impl) "999.999.999.999"
        = .error PyAddrError.addressValueError
    ∧ validateIP (pyIPLib str6impl) "169.254.10.1" = .ok ""
    ∧ validateIP (pyIPLib str6impl) "192.168.0.5" = .ok "192.168.0.5" := by
  refine ⟨rfl, rfl, rfl⟩

/-- Witness for C9 with a concrete rendering function. -/
theorem C9_witness :
    validateIP (pyIPLib (fun _ => "")) "999.999.999.999"
      = .error PyAddrError.addressValueError :=
  (C9_validateIP_raises (fun _ => "")).1

/-! ### Claim C10: AppKey pairing poll (`DiscoverOctoPrintAction.py` lines
652-684 and `_pollApiKey` lines 295-298) -/

/-- The pyqtSignals the discovery action can emit; there is no dedicated
denial signal. -/
inductive DiscoverSignal
  | appKeyReceived
  | appKeysSupportedChanged
deriving DecidableEq, Inhabited

structure AppKeyState where
  appkeyRequest : Option String
  keysCache : List (String × String)
  appkeyInstanceId : String
deriving DecidableEq, Inhabited

structure AppKeyStepResult where
  state : AppKeyState
  pollTimerStarted : Bool := false
  signals : List DiscoverSignal := []
  logs : List String := []
  raised : Option PyError := none
deriving DecidableEq, Inhabited

/-- Python dict item assignment on the `_keys_cache` dict. -/
def dictAssignStr (m : List (String × String)) (k v : String) : List (String × String) :=
  if m.any (fun kv => kv.1 == k) then m.map (fun kv => if kv.1 == k then (k, v) else kv)
  else m ++ [(k, v)]

/-- The periodic AppKey poll branch of
`DiscoverOctoPrintAction._onRequestFinished` (lines 652-684). `body` is the
parse state of the reply body: `none` models invalid JSON (`json_data` stays
`None`), `some obj` a parsed JSON object (falsy when empty). A 202 re-arms the
single-shot poll timer and leaves `_appkey_request` alone; every other status
reaches lines 683-684 and clears `_appkey_request`, which makes the next
`_pollApiKey` tick a no-op — except that a 200 body lacking `api_key` raises
KeyError at line 667 before the clearing assignment runs. -/
def appkeyPollStep (st : AppKeyState) (status : Nat)
    (body : Option (List (String × String))) : AppKeyStepResult :=
  if status = 202 then
    { state := st, pollTimerStarted := true }
  else if status = 200 then
    match body with
    | none =>
      { state := { st with appkeyRequest := none },
        logs := ["AppKey granted", "Received invalid JSON from octoprint instance."] }
    | some obj =>
      if obj.isEmpty then
        { state := { st with appkeyRequest := none }, logs := ["AppKey granted"] }
      else
        match obj.lookup "api_key" with
        | none => { state := st, logs := ["AppKey granted"], raised := some PyError.keyError }
        | some key =>
          { state := { st with
              keysCache := dictAssignStr st.keysCache st.appkeyInstanceId key,
              appkeyRequest := none },
            signals := [DiscoverSignal.appKeyReceived],
            logs := ["AppKey granted"] }
  else if status = 404 then
    { state := { st with appkeyRequest := none }, logs := ["AppKey denied"] }
  else
    { state := { st with appkeyRequest := none },
      logs := ["Unknown response when waiting for an AppKey"] }

/-- Model of `_pollApiKey` (lines 295-298): a GET poll is issued only while
`_appkey_request` is set. -/
def pollApiKeyIssuesRequest (st : AppKeyState) : Bool := st.appkeyRequest.isSome

def appKeyPollState : AppKeyState :=
  { appkeyRequest := some "http://octoprint.local/plugin/appkeys/request",
    keysCache := [],
    appkeyInstanceId := "octoprint_test" }

/-- C10 counterexample: a 404 poll response only logs "AppKey denied" and
emits no signal at all — the action exposes only `appKeysSupportedChanged` and
`appKeyReceived`, so denial is logged, not signalled, refuting the claimed
"a 404 status signals denial". -/
theorem C10_counterexample :
    ¬((appkeyPollStep appKeyPollState 404 none).signals ≠ [])
    ∧ (appkeyPollStep appKeyPollState 404 none).logs = ["AppKey denied"] := by
  decide

/-- C10 amended: 202 re-arms the poll timer and keeps the pending request
descriptor; 200 with a JSON body carrying `api_key` stores the key in the
cache, emits the success signal and clears the descriptor; 404 logs the denial
(no signal is emitted) and clears the descriptor; any other status logs and
clears the descriptor; and once the descriptor is cleared `_pollApiKey` issues
no further request. -/
theorem C10_appkey_poll_amended (st : AppKeyState)
    (body : Option (List (String × String))) (status : Nat) :
    (status = 202 → (appkeyPollStep st status body).pollTimerStarted = true
      ∧ (appkeyPollStep st status body).state.appkeyRequest = st.appkeyRequest)
  ∧ (∀ (obj : List (String × String)) (key : String),
      status = 200 → body = some obj → obj.isEmpty = false →
      obj.lookup "api_key" = some key →
      (appkeyPollStep st status body).state.keysCache
          = dictAssignStr st.keysCache st.appkeyInstanceId key
        ∧ (appkeyPollStep st status body).signals = [DiscoverSignal.appKeyReceived]
        ∧ (appkeyPollStep st status body).state.appkeyRequest = none)
  ∧ (status = 404 → (appkeyPollStep st status body).logs = ["AppKey denied"]
      ∧ (appkeyPollStep st status body).signals = []
      ∧ (appkeyPollStep st status body).state.appkeyRequest = none)
  ∧ (status ≠ 202 → status ≠ 200 → status ≠ 404 →
      (appkeyPollStep st status body).logs
          = ["Unknown response when waiting for an AppKey"]
      ∧ (appkeyPollStep st status body).state.appkeyRequest = none)
  ∧ (∀ stA : AppKeyState, stA.appkeyRequest = none →
      pollApiKeyIssuesRequest stA = false) := by
  refine ⟨?_, ?_, ?_, ?_, ?_⟩
  · intro h
    subst h
    exact ⟨rfl, rfl⟩
  · intro obj key h200 hbody hne hkey
    subst h200
    subst hbody
    simp [appkeyPollStep, hne, hkey]
  · intro h404
    subst h404
    simp [appkeyPollStep]
  · intro h1 h2 h3
    simp [appkeyPollStep, h1, h2, h3]
  · intro stA h
    unfold pollApiKeyIssuesRequest
    rw [h]
    rfl

/-- Witness for C10 at concrete poll responses of every kind. -/
theorem C10_witness :
    ((appkeyPollStep appKeyPollState 202 none).pollTimerStarted = true
      ∧ (appkeyPollStep appKeyPollState 202 none).state.appkeyRequest
          = appKeyPollState.appkeyRequest)
    ∧ ((appkeyPollStep appKeyPollState 200 (some [("api_key", "SECRET")])).state.keysCache
          = dictAssignStr appKeyPollState.keysCache appKeyPollState.appkeyInstanceId "SECRET"
      ∧ (appkeyPollStep appKeyPollState 200 (some [("api_key", "SECRET")])).signals
          = [DiscoverSignal.appKeyReceived])
    ∧ ((appkeyPollStep appKeyPollState 404 none).state.appkeyRequest = none)
    ∧ ((appkeyPollStep appKeyPollState 500 none).state.appkeyRequest = none) := by
  refine ⟨(C10_appkey_poll_amended appKeyPollState none 202).1 rfl, ?_, ?_, ?_⟩
  · have h := (C10_appkey_poll_amended appKeyPollState (some [("api_key", "SECRET")]) 200).2.1
      [("api_key", "SECRET")] "SECRET" rfl rfl (by decide) (by decide)
    exact ⟨h.1, h.2.1⟩
  · exact ((C10_appkey_poll_amended appKeyPollState none 404).2.2.1 rfl).2.2
  · exact ((C10_appkey_poll_amended appKeyPollState none 500).2.2.2.1 (by norm_num)
      (by norm_num) (by norm_num)).2
